import Mathlib

/-!
# Verification of the Personal Data Visualization Expert pipeline

Shallow embedding of the repository's action interpretation and validation
pipeline (`llm_handler.py`, `data_processor.py`, `app.py`, `visualizer.py`)
together with theorems settling the frozen claims about it.

Modelling conventions:
* Python scalar values (JSON values and dataframe cells) are `PyVal`.
  `PyVal.none_` models both Python `None` / JSON `null` and pandas `NaN`;
  `PyVal.ts` models a pandas `Timestamp`.
* Numbers are `Rat` (exact rationals standing for Python's numbers; the
  floating-point representation itself is out of scope).
* `json.loads` is modelled by `loads`, a parser for the JSON fragment the
  pipeline exchanges: objects, arrays, strings without escape sequences,
  decimal numbers (optionally signed, with an optional fraction part),
  `true`, `false`, `null`.  Like `json.loads` it rejects input with trailing
  non-whitespace ("Extra data").
* A pandas `DataFrame` is a column-name list plus a row-major cell matrix.
* Python dict access, truthiness and `==` are modelled by `dget`,
  `pyTruthy` and `pyEq` (with pandas semantics `NaN == NaN = false`).
-/

namespace PDVE

/-- Python scalar/JSON values as exchanged by the pipeline.  `none_` stands
for Python `None`, JSON `null` and pandas `NaN`; `ts` for a pandas
`Timestamp` produced by `pd.to_datetime`. -/
inductive PyVal where
  | none_ : PyVal
  | bool : Bool → PyVal
  | num : Rat → PyVal
  | str : String → PyVal
  | list : List PyVal → PyVal
  | dict : List (String × PyVal) → PyVal
  | ts : Int → PyVal
  deriving Repr

mutual

/-- Decidable structural equality on `PyVal` (used for `DecidableEq`). -/
def PyVal.beq : PyVal → PyVal → Bool
  | .none_, .none_ => true
  | .bool a, .bool b => a == b
  | .num a, .num b => a == b
  | .str a, .str b => a == b
  | .list a, .list b => PyVal.beqList a b
  | .dict a, .dict b => PyVal.beqKvs a b
  | .ts a, .ts b => a == b
  | _, _ => false

/-- Structural equality on lists of `PyVal`. -/
def PyVal.beqList : List PyVal → List PyVal → Bool
  | [], [] => true
  | a :: l, b :: m => PyVal.beq a b && PyVal.beqList l m
  | _, _ => false

/-- Structural equality on key/value lists. -/
def PyVal.beqKvs : List (String × PyVal) → List (String × PyVal) → Bool
  | [], [] => true
  | (k, a) :: l, (k₂, b) :: m => k == k₂ && PyVal.beq a b && PyVal.beqKvs l m
  | _, _ => false

end

mutual

theorem PyVal.beq_iff : ∀ a b : PyVal, PyVal.beq a b = true ↔ a = b
  | .none_, .none_ => by simp [PyVal.beq]
  | .bool a, .bool b => by simp [PyVal.beq]
  | .num a, .num b => by simp [PyVal.beq]
  | .str a, .str b => by simp [PyVal.beq]
  | .list a, .list b => by
      simp only [PyVal.beq]
      rw [PyVal.beqList_iff a b]
      constructor
      · intro h; rw [h]
      · intro h; injection h
  | .dict a, .dict b => by
      simp only [PyVal.beq]
      rw [PyVal.beqKvs_iff a b]
      constructor
      · intro h; rw [h]
      · intro h; injection h
  | .ts a, .ts b => by simp [PyVal.beq]
  | .none_, .bool _ => by simp [PyVal.beq]
  | .none_, .num _ => by simp [PyVal.beq]
  | .none_, .str _ => by simp [PyVal.beq]
  | .none_, .list _ => by simp [PyVal.beq]
  | .none_, .dict _ => by simp [PyVal.beq]
  | .none_, .ts _ => by simp [PyVal.beq]
  | .bool _, .none_ => by simp [PyVal.beq]
  | .bool _, .num _ => by simp [PyVal.beq]
  | .bool _, .str _ => by simp [PyVal.beq]
  | .bool _, .list _ => by simp [PyVal.beq]
  | .bool _, .dict _ => by simp [PyVal.beq]
  | .bool _, .ts _ => by simp [PyVal.beq]
  | .num _, .none_ => by simp [PyVal.beq]
  | .num _, .bool _ => by simp [PyVal.beq]
  | .num _, .str _ => by simp [PyVal.beq]
  | .num _, .list _ => by simp [PyVal.beq]
  | .num _, .dict _ => by simp [PyVal.beq]
  | .num _, .ts _ => by simp [PyVal.beq]
  | .str _, .none_ => by simp [PyVal.beq]
  | .str _, .bool _ => by simp [PyVal.beq]
  | .str _, .num _ => by simp [PyVal.beq]
  | .str _, .list _ => by simp [PyVal.beq]
  | .str _, .dict _ => by simp [PyVal.beq]
  | .str _, .ts _ => by simp [PyVal.beq]
  | .list _, .none_ => by simp [PyVal.beq]
  | .list _, .bool _ => by simp [PyVal.beq]
  | .list _, .num _ => by simp [PyVal.beq]
  | .list _, .str _ => by simp [PyVal.beq]
  | .list _, .dict _ => by simp [PyVal.beq]
  | .list _, .ts _ => by simp [PyVal.beq]
  | .dict _, .none_ => by simp [PyVal.beq]
  | .dict _, .bool _ => by simp [PyVal.beq]
  | .dict _, .num _ => by simp [PyVal.beq]
  | .dict _, .str _ => by simp [PyVal.beq]
  | .dict _, .list _ => by simp [PyVal.beq]
  | .dict _, .ts _ => by simp [PyVal.beq]
  | .ts _, .none_ => by simp [PyVal.beq]
  | .ts _, .bool _ => by simp [PyVal.beq]
  | .ts _, .num _ => by simp [PyVal.beq]
  | .ts _, .str _ => by simp [PyVal.beq]
  | .ts _, .list _ => by simp [PyVal.beq]
  | .ts _, .dict _ => by simp [PyVal.beq]

theorem PyVal.beqList_iff : ∀ a b : List PyVal, PyVal.beqList a b = true ↔ a = b
  | [], [] => by simp [PyVal.beqList]
  | [], _ :: _ => by simp [PyVal.beqList]
  | _ :: _, [] => by simp [PyVal.beqList]
  | a :: l, b :: m => by
      simp only [PyVal.beqList, Bool.and_eq_true]
      rw [PyVal.beq_iff a b, PyVal.beqList_iff l m]
      simp

theorem PyVal.beqKvs_iff :
    ∀ a b : List (String × PyVal), PyVal.beqKvs a b = true ↔ a = b
  | [], [] => by simp [PyVal.beqKvs]
  | [], _ :: _ => by simp [PyVal.beqKvs]
  | _ :: _, [] => by simp [PyVal.beqKvs]
  | (k, a) :: l, (k₂, b) :: m => by
      simp only [PyVal.beqKvs, Bool.and_eq_true]
      rw [PyVal.beq_iff a b, PyVal.beqKvs_iff l m]
      simp [beq_iff_eq, Prod.ext_iff, and_assoc]

end

instance : DecidableEq PyVal := fun a b =>
  decidable_of_iff (PyVal.beq a b = true) (PyVal.beq_iff a b)

/-- Python truthiness (`if x:`): `None`, `False`, `0`, `""`, `[]` and `{}`
are falsy, everything else truthy. -/
def pyTruthy : PyVal → Bool
  | .none_ => false
  | .bool b => b
  | .num q => q != 0
  | .str s => s != ""
  | .list xs => !xs.isEmpty
  | .dict kvs => !kvs.isEmpty
  | .ts _ => true

/-- Python `str()` as used inside f-strings of error messages.  Only the
string and integer cases are relied on by the theorems; the remaining
cases are reasonable renderings. -/
def pyStr : PyVal → String
  | .none_ => "None"
  | .bool b => if b then "True" else "False"
  | .num q => if q.den = 1 then toString q.num else toString q
  | .str s => s
  | .list _ => "[...]"
  | .dict _ => "\x7b...\x7d"
  | .ts n => toString n

/-- Python/pandas `==` on scalars: numbers compare by value (with
`True == 1`), strings by value, `NaN == x` is `False` (pandas semantics for
missing cells), and values of different kinds compare unequal.  Container
equality is not needed by the pipeline and is modelled as `False`. -/
def pyEq : PyVal → PyVal → Bool
  | .bool a, .bool b => a == b
  | .bool a, .num q => (if a then (1 : Rat) else 0) == q
  | .num q, .bool b => q == (if b then (1 : Rat) else 0)
  | .num p, .num q => p == q
  | .str s, .str t => s == t
  | .ts m, .ts n => m == n
  | _, _ => false

/-- Python `d.get(k)` / `k in d` on a dict value; `none` when the key is
absent or the value is not a dict. -/
def dget : PyVal → String → Option PyVal
  | .dict kvs, k => (kvs.find? (fun kv => kv.1 == k)).map (·.2)
  | _, _ => none

/-- Python `isinstance(x, dict)`. -/
def isDict : PyVal → Bool
  | .dict _ => true
  | _ => false

/-- Python `isinstance(x, list)`. -/
def isList : PyVal → Bool
  | .list _ => true
  | _ => false

/-! ## `json.loads`

A recursive-descent parser for the JSON fragment used by the pipeline
(see the module docstring).  The fuel argument only bounds nesting depth;
`loads` supplies more fuel than any input can consume. -/

/-- JSON insignificant whitespace skipping. -/
def skipWs : List Char → List Char
  | c :: cs => if c = ' ' ∨ c = '\n' ∨ c = '\t' ∨ c = '\r' then skipWs cs else c :: cs
  | [] => []

/-- Parse a JSON string body after the opening quote.  Escape sequences are
outside the modelled fragment, so a backslash makes the parse fail. -/
def parseStrBody : List Char → Option (String × List Char)
  | [] => none
  | c :: cs =>
    if c = '"' then some ("", cs)
    else if c = '\\' then none
    else match parseStrBody cs with
      | some (s, r) => some (⟨c :: s.data⟩, r)
      | none => none

/-- Split off a maximal run of decimal digits. -/
def takeDigits : List Char → List Char × List Char
  | c :: cs =>
    if c.isDigit then
      let (ds, r) := takeDigits cs
      (c :: ds, r)
    else ([], c :: cs)
  | [] => ([], [])

/-- Digit run to a natural number. -/
def digitsToNat (ds : List Char) : Nat :=
  ds.foldl (fun acc c => acc * 10 + (c.toNat - '0'.toNat)) 0

/-- Parse a JSON number: optional minus sign, integer part, optional
fraction part (the exponent form is outside the modelled fragment). -/
def parseNum (s : List Char) : Option (PyVal × List Char) :=
  let (neg, s₁) := match s with
    | '-' :: r => (true, r)
    | _ => (false, s)
  let (ints, s₂) := takeDigits s₁
  if ints.isEmpty then none
  else
    let ipart : Rat := (digitsToNat ints : Int)
    let (q, rest) := match s₂ with
      | '.' :: r =>
        let (fs, r₂) := takeDigits r
        if fs.isEmpty then (none, s₂)
        else (some (ipart + (digitsToNat fs : Rat) / ((10 : Rat) ^ fs.length)), r₂)
      | _ => (some ipart, s₂)
    match q with
    | none => none
    | some q => some (.num (if neg then -q else q), rest)

mutual

/-- Parse one JSON value. -/
def parseV : Nat → List Char → Option (PyVal × List Char)
  | 0, _ => none
  | fuel + 1, s =>
    match skipWs s with
    | [] => none
    | '"' :: cs => (parseStrBody cs).map (fun p => (.str p.1, p.2))
    | '[' :: cs =>
      (match skipWs cs with
       | ']' :: r => some (.list [], r)
       | s₂ => (parseItems fuel s₂).map (fun p => (.list p.1, p.2)))
    | '{' :: cs =>
      (match skipWs cs with
       | '}' :: r => some (.dict [], r)
       | s₂ => (parseMembers fuel s₂).map (fun p => (.dict p.1, p.2)))
    | 't' :: 'r' :: 'u' :: 'e' :: r => some (.bool true, r)
    | 'f' :: 'a' :: 'l' :: 's' :: 'e' :: r => some (.bool false, r)
    | 'n' :: 'u' :: 'l' :: 'l' :: r => some (.none_, r)
    | s₂ => parseNum s₂

/-- Parse the comma-separated items of a non-empty array, including the
closing bracket. -/
def parseItems : Nat → List Char → Option (List PyVal × List Char)
  | 0, _ => none
  | fuel + 1, s =>
    match parseV fuel s with
    | none => none
    | some (v, r) =>
      match skipWs r with
      | ',' :: r₂ => (parseItems fuel r₂).map (fun p => (v :: p.1, p.2))
      | ']' :: r₂ => some ([v], r₂)
      | _ => none

/-- Parse the comma-separated members of a non-empty object, including the
closing brace. -/
def parseMembers : Nat → List Char → Option (List (String × PyVal) × List Char)
  | 0, _ => none
  | fuel + 1, s =>
    match skipWs s with
    | '"' :: cs =>
      (match parseStrBody cs with
       | none => none
       | some (k, r) =>
         match skipWs r with
         | ':' :: r₂ =>
           (match parseV fuel r₂ with
            | none => none
            | some (v, r₃) =>
              match skipWs r₃ with
              | ',' :: r₄ => (parseMembers fuel r₄).map (fun p => ((k, v) :: p.1, p.2))
              | '}' :: r₄ => some ([(k, v)], r₄)
              | _ => none)
         | _ => none)
    | _ => none

end

/-- Python `str.lower()` on the modelled (ASCII) strings, written so the
kernel can evaluate it (`String.toLower` itself does not reduce). -/
def strLower (s : String) : String := ⟨s.data.map Char.toLower⟩

/-- `json.loads`: parse a full JSON document; trailing non-whitespace is an
error ("Extra data"), reported as `none` (the caller catches
`JSONDecodeError`). -/
def loads (s : String) : Option PyVal :=
  match parseV (s.length + 1) s.data with
  | some (v, rest) => if skipWs rest = [] then some v else none
  | none => none

/-! ## `safe_json_parse` (src/llm_handler.py)

The Python implementation runs
`re.search(r"` ++ backtick-backtick-backtick ++ `json\s*([\s\S]*?)\s*` ++
fence ++ `|{[\s\S]*}", text)`.
`re.search` returns the leftmost match; at each position the fence
alternative is tried before the brace alternative.  The fence alternative
matches an opening fence labeled `json`, a lazily-matched body, and the
*first* closing fence after it, with surrounding whitespace absorbed by the
greedy `\s*`.  The brace alternative is greedy: it spans from a `{` to the
*last* `}` of the text. -/

/-- The opening fence pattern of the regex. -/
def fenceOpen : List Char := "```json".data

/-- Split a character list at the first occurrence of a closing fence:
returns the characters before it and the characters after it. -/
def splitAtFence : List Char → Option (List Char × List Char)
  | '`' :: '`' :: '`' :: r => some ([], r)
  | c :: cs => (splitAtFence cs).map (fun p => (c :: p.1, p.2))
  | [] => none

/-- Characters of `s` up to and including the last occurrence of `c`. -/
def takeToLast (c : Char) (s : List Char) : List Char :=
  ((s.reverse.dropWhile (fun d => d ≠ c)).reverse)

/-- Leftmost match of the extraction regex: `some (group1?, group0)` where
`group1?` is the fence body (present only when the fence alternative
matched; the regex's surrounding `\s*` strips its whitespace) and `group0`
the full matched text. -/
def reSearch : List Char → Option (Option String × String)
  | [] => none
  | c :: cs =>
    if fenceOpen.isPrefixOf (c :: cs) then
      match splitAtFence ((c :: cs).drop 7) with
      | some (body, _) =>
        some (some (String.mk body).trim,
              String.mk ((c :: cs).take (7 + body.length + 3)))
      | none => reSearch cs
    else if c = '{' ∧ '}' ∈ cs then
      some (none, String.mk (c :: takeToLast '}' cs))
    else reSearch cs

/-- Index of the first occurrence of `c`, Python `str.find`. -/
def firstIdx (c : Char) (s : List Char) : Option Nat :=
  s.indexOf? c

/-- Index of the last occurrence of `c`, Python `str.rfind`. -/
def lastIdx (c : Char) (s : List Char) : Option Nat :=
  (s.reverse.indexOf? c).map (fun k => s.length - 1 - k)

/-- The final fallback of `safe_json_parse`: parse the substring between
the first `{` and the last `}` (inclusive) when that span is non-trivial. -/
def jsonFallback (text : String) : Option PyVal :=
  match firstIdx '{' text.data, lastIdx '}' text.data with
  | some i, some j =>
    if i < j then loads (String.mk ((text.data.drop i).take (j - i + 1))) else none
  | _, _ => none

/-- `safe_json_parse`: try the regex match (fence body if group 1 is
non-empty, otherwise the whole match — Python tests `group(1)` for
truthiness, so an empty fence body also falls back to `group(0)`); if that
fails to parse, fall back to the first-`{`-to-last-`}` substring. -/
def safe_json_parse (text : String) : Option PyVal :=
  match reSearch text.data with
  | some (g1, g0) =>
    let jsonStr := match g1 with
      | some s => if s = "" then g0 else s
      | none => g0
    match loads jsonStr with
    | some v => some v
    | none => jsonFallback text
  | none => jsonFallback text

/-! ## `parse_llm_response` (src/llm_handler.py) -/

/-- The quadruple `(action, description, filter_conditions, error)`
returned by `parse_llm_response`.  `filters = none` models Python `None`
(no `filter` key); `filters = some v` the key's value, even when falsy. -/
structure ParseResult where
  action : Option PyVal
  description : Option PyVal
  filters : Option PyVal
  error : Option String
  deriving Repr, DecidableEq

/-- The `(None, None, None, error)` failure quadruple. -/
def parseErr (e : String) : ParseResult := ⟨none, none, none, some e⟩

/-- The five supported filter operators. -/
def validOps : List String := ["==", ">=", "<=", ">", "<"]

/-- The per-condition validation loop of `parse_llm_response`: first
failing condition wins; a condition without an `operator` key defaults to
`"=="`. -/
def filterCheck : List PyVal → Option String
  | [] => none
  | cond :: rest =>
    if ¬ isDict cond then some "Each filter condition must be a dictionary."
    else if (dget cond "column").isNone ∨ (dget cond "value").isNone then
      some "Filter condition missing 'column' or 'value' parameter."
    else
      let operator := (dget cond "operator").getD (.str "==")
      if validOps.any (fun o => pyEq operator (.str o)) then filterCheck rest
      else some s!"Invalid filter operator: {pyStr operator}"

/-- Stand-in for Python's `f"Error parsing LLM response: {str(e)}"` message
produced by the enclosing `try/except` (e.g. `AttributeError` from calling
`.get`/`.lower()` on a non-dict / non-string); the exception's own text is
not modelled. -/
def parseExcMsg : String := "Error parsing LLM response: attribute error"

/-- `parse_llm_response`.  Mirrors the source exactly, including the
control-flow quirk that the per-type `if/elif` chain sends every
*well-formed* chart action to the final `else`, so only `summarize`
actions (and malformed chart actions, via their missing-parameter errors)
escape the `Unknown action type` rejection. -/
def parse_llm_response (response_text : String) : ParseResult :=
  if response_text = "" then parseErr "No response received from the LLM."
  else
    match safe_json_parse response_text with
    | none => parseErr "Could not parse LLM response as JSON."
    | some parsed =>
      if ¬ pyTruthy parsed then parseErr "Could not parse LLM response as JSON."
      else if ¬ isDict parsed then parseErr parseExcMsg
      else
        let action := (dget parsed "action").getD (.dict [])
        let description := (dget parsed "description").getD (.str "No description provided.")
        if ¬ isDict action ∨ (dget action "type").isNone then
          parseErr "Invalid action structure in LLM response."
        else
          match (dget action "type").getD .none_ with
          | .str ty =>
            let actionType := strLower ty
            let fcOpt := dget action "filter"
            let fcVal := fcOpt.getD .none_
            let check : Option String :=
              if pyTruthy fcVal then
                match fcVal with
                | .list conds => filterCheck conds
                | _ => some "Filter must be a list of condition dictionaries."
              else none
            match check with
            | some e => parseErr e
            | none =>
              if actionType = "histogram" ∧ (dget action "column").isNone then
                parseErr "Histogram action missing 'column' parameter."
              else if actionType = "bar" ∧ (dget action "x").isNone then
                parseErr "Bar chart action missing 'x' parameter."
              else if actionType = "scatter" ∧
                  ((dget action "x").isNone ∨ (dget action "y").isNone) then
                parseErr "Scatter plot action missing 'x' or 'y' parameter."
              else if actionType = "line" ∧
                  ((dget action "x").isNone ∨ (dget action "y").isNone) then
                parseErr "Line chart action missing 'x' or 'y' parameter."
              else if actionType = "summarize" then
                ⟨some action, some description, fcOpt, none⟩
              else parseErr s!"Unknown action type: {actionType}"
          | _ => parseErr parseExcMsg

/-! ## DataFrame model and `data_processor.py`

A pandas `DataFrame` is a list of column names plus row-major cells.
pandas dtype predicates are modelled on a column's cell list:
* `DataFrame.empty` is true when either axis has length 0;
* a column is numeric-dtyped when every cell is a number, a bool or `NaN`
  (pandas counts bool as numeric and an all-`NaN` column is `float64`);
* a column is datetime-dtyped when every cell is a `Timestamp` or missing
  and at least one `Timestamp` is present;
* otherwise the column is `object`-dtyped. -/

/-- A pandas dataframe: ordered column names and row-major cells.  Cells a
row does not have (ragged input) read as `NaN`. -/
structure DataFrame where
  cols : List String
  rows : List (List PyVal)
  deriving Repr, DecidableEq

/-- Position of a column, `none` when absent. -/
def DataFrame.colIdx (df : DataFrame) (c : String) : Option Nat :=
  df.cols.indexOf? c

/-- The cell list of column `c` (`df[c]`); `[]` when the column is absent. -/
def DataFrame.colVals (df : DataFrame) (c : String) : List PyVal :=
  match df.colIdx c with
  | some i => df.rows.map (fun r => r.getD i .none_)
  | none => []

/-- `df[c] = f(df[c])`: replace column `c` cell-wise (the in-place column
assignment of `prepare_data_for_visualization`). -/
def DataFrame.setCol (df : DataFrame) (c : String) (f : PyVal → PyVal) : DataFrame :=
  match df.colIdx c with
  | some i => ⟨df.cols, df.rows.map (fun r => r.set i (f (r.getD i .none_)))⟩
  | none => df

/-- `df.empty`: true when any axis has length 0. -/
def DataFrame.empty (df : DataFrame) : Bool :=
  df.rows.isEmpty || df.cols.isEmpty

/-- `pd.api.types.is_numeric_dtype` on a column's cells. -/
def numericDtype (cells : List PyVal) : Bool :=
  cells.all fun v => match v with
    | .num _ => true
    | .bool _ => true
    | .none_ => true
    | _ => false

/-- `pd.api.types.is_datetime64_dtype` on a column's cells. -/
def datetimeDtype (cells : List PyVal) : Bool :=
  (cells.any fun v => match v with | .ts _ => true | _ => false) &&
  (cells.all fun v => match v with | .ts _ => true | .none_ => true | _ => false)

/-- Whether a column is `object`/string-dtyped (the only columns
`detect_time_columns` examines). -/
def objectDtype (cells : List PyVal) : Bool :=
  !numericDtype cells && !datetimeDtype cells

/-- Numeric parse of one string, as `pd.to_numeric` accepts it in the
modelled fragment: optional surrounding whitespace, optional sign, digits
with an optional fraction part. -/
def strToNum (s : String) : Option Rat :=
  match parseNum (skipWs s.data) with
  | some (.num q, rest) => if skipWs rest = [] then some q else none
  | _ => none

/-- `pd.to_numeric(·, errors="coerce")` on one cell: unconvertible values
become `NaN`; the call never raises on scalar cells. -/
def toNumericCell : PyVal → PyVal
  | .num q => .num q
  | .bool b => .num (if b then 1 else 0)
  | .str s => match strToNum s with
    | some q => .num q
    | none => .none_
  | _ => .none_

/-- Date parse of an ISO `YYYY-MM-DD` string (the modelled fragment of the
pandas date parser), encoded as `y*10000 + m*100 + d`. -/
def parseDateStr (s : String) : Option Int :=
  match s.split (fun c => c = '-') with
  | [y, m, d] =>
    if !y.isEmpty && !m.isEmpty && !d.isEmpty &&
        (y.data ++ m.data ++ d.data).all Char.isDigit &&
        1 ≤ digitsToNat m.data && digitsToNat m.data ≤ 12 &&
        1 ≤ digitsToNat d.data && digitsToNat d.data ≤ 31 then
      some ((digitsToNat y.data : Int) * 10000 + digitsToNat m.data * 100 + digitsToNat d.data)
    else none
  | _ => none

/-- `pd.to_datetime(·, errors="coerce")` on one cell: unconvertible values
become `NaT`; integers are accepted as epoch values. -/
def toDatetimeCell : PyVal → PyVal
  | .ts n => .ts n
  | .str s => match parseDateStr s with
    | some n => .ts n
    | none => .none_
  | .num q => if q.den = 1 then .ts q.num else .none_
  | _ => .none_

/-- `load_data` is I/O (CSV upload) and out of scope; `validate_data`
checks the loaded frame. -/
def validate_data (odf : Option DataFrame) : Bool × String :=
  match odf with
  | none => (false, "No data loaded.")
  | some df =>
    if df.empty then (false, "The uploaded file contains no data.")
    else if df.cols.length < 1 then (false, "The uploaded file contains no columns.")
    else (true, "Data validation successful.")

/-- `extract_schema`: column name to dtype-label map (labels modelled by
the three dtype classes). -/
def extract_schema (df : DataFrame) : List (String × String) :=
  df.cols.map fun c =>
    (c, if numericDtype (df.colVals c) then "float64"
        else if datetimeDtype (df.colVals c) then "datetime64[ns]"
        else "object")

/-- Whether one column qualifies for `detect_time_columns`: it is
object-dtyped, its first 10 non-missing cells are a non-empty sample, and
the entire sample parses as dates (`pd.to_datetime(sample, errors="raise")`
succeeds only in that case). -/
def timeColQualifies (cells : List PyVal) : Bool :=
  if !objectDtype cells then false
  else
    let sample := (cells.filter (fun v => v ≠ .none_)).take 10
    if sample.isEmpty then false
    else sample.all fun v => match v with
      | .str s => (parseDateStr s).isSome
      | _ => false

/-- `detect_time_columns`. -/
def detect_time_columns (df : DataFrame) : List String :=
  df.cols.filter (fun c => timeColQualifies (df.colVals c))

/-! ## `prepare_data_for_visualization` (src/data_processor.py)

The function receives the (already filtered) working dataframe and an
action dict.  Its coercions are written `df[col] = pd.to_numeric(...)`,
i.e. they assign into the dataframe object that was passed in; the
embedding therefore threads the argument's state explicitly:
`argAfter` is the state of the caller's dataframe object when the call
returns, and `result`/`error` the returned pair. -/

/-- Outcome of `prepare_data_for_visualization`: final state of the
argument object, plus the returned `(result, error)` pair. -/
structure PrepResult where
  argAfter : DataFrame
  result : Option DataFrame
  error : Option String
  deriving Repr, DecidableEq

/-- Python `value in df.columns` for an arbitrary value: only a string can
be a member of the column index. -/
def inColumns (v : PyVal) (cols : List String) : Bool :=
  match v with
  | .str s => cols.contains s
  | _ => false

/-- The string name of a parameter value, defaulting when it is not a
string (the error branches interpolate the raw value via `pyStr`). -/
def asColName (v : PyVal) : String :=
  match v with
  | .str s => s
  | _ => ""

/-- One coercion step of the scatter/line branches: coerce column `c`
in place when its dtype check fails. -/
def coerceNumericIfNeeded (df : DataFrame) (c : String) : DataFrame :=
  if numericDtype (df.colVals c) then df else df.setCol c toNumericCell

/-- The scatter/line missing-column message: quoted missing names joined
with `" and "` (Python builds the same list-comprehension text). -/
def missingColsMsg (xv yv : PyVal) (cols : List String) : String :=
  let parts := (if inColumns xv cols then [] else [s!"'{pyStr xv}'"]) ++
               (if inColumns yv cols then [] else [s!"'{pyStr yv}'"])
  let sep := " and "
  s!"Columns {String.intercalate sep parts} not found in the dataset."

/-- `prepare_data_for_visualization`. -/
def prepare_data_for_visualization (df : DataFrame) (action : PyVal) : PrepResult :=
  match (dget action "type").getD (.str "") with
  | .str ty =>
    let actionType := strLower ty
    if actionType = "histogram" then
      let column := (dget action "column").getD .none_
      if ¬ inColumns column df.cols then
        ⟨df, none, some s!"Column '{pyStr column}' not found in the dataset."⟩
      else if numericDtype (df.colVals (asColName column)) then ⟨df, some df, none⟩
      else
        let df₂ := df.setCol (asColName column) toNumericCell
        ⟨df₂, some df₂, none⟩
    else if actionType = "bar" then
      let x := (dget action "x").getD .none_
      let y := (dget action "y").getD .none_
      if ¬ inColumns x df.cols then
        ⟨df, none, some s!"Column '{pyStr x}' not found in the dataset."⟩
      else if pyTruthy y ∧ ¬ inColumns y df.cols then
        ⟨df, none, some s!"Column '{pyStr y}' not found in the dataset."⟩
      else if pyTruthy y ∧ ¬ numericDtype (df.colVals (asColName y)) then
        let df₂ := df.setCol (asColName y) toNumericCell
        ⟨df₂, some df₂, none⟩
      else ⟨df, some df, none⟩
    else if actionType = "scatter" then
      let x := (dget action "x").getD .none_
      let y := (dget action "y").getD .none_
      if ¬ inColumns x df.cols ∨ ¬ inColumns y df.cols then
        ⟨df, none, some (missingColsMsg x y df.cols)⟩
      else
        let df₂ := coerceNumericIfNeeded df (asColName x)
        let df₃ := coerceNumericIfNeeded df₂ (asColName y)
        ⟨df₃, some df₃, none⟩
    else if actionType = "line" then
      let x := (dget action "x").getD .none_
      let y := (dget action "y").getD .none_
      if ¬ inColumns x df.cols ∨ ¬ inColumns y df.cols then
        ⟨df, none, some (missingColsMsg x y df.cols)⟩
      else
        let df₂ := if datetimeDtype (df.colVals (asColName x)) then df
                   else df.setCol (asColName x) toDatetimeCell
        let df₃ := coerceNumericIfNeeded df₂ (asColName y)
        ⟨df₃, some df₃, none⟩
    else if actionType = "summarize" then
      match (dget action "columns").getD (.list (df.cols.map .str)) with
      | .list items =>
        (match items.find? (fun v => ¬ inColumns v df.cols) with
         | some v =>
           ⟨df, none, some s!"Column '{pyStr v}' specified for summary not found in the dataset."⟩
         | none => ⟨df, some df, none⟩)
      | _ => ⟨df, none, some "Error preparing data: type error"⟩
    else ⟨df, none, some s!"Unknown action type: {actionType}"⟩
  | _ => ⟨df, none, some "Error preparing data: attribute error"⟩

/-! ## The filter loop of `main` (src/app.py lines 80–105)

`main` copies the session dataframe (`filtered_df = df.copy()`) and then
narrows the copy one condition at a time.  pandas comparison semantics on
a cell: `==` never raises (mismatched kinds compare unequal, `NaN`
compares unequal to everything); the four ordering operators compare
numbers (bools counting as 0/1, `NaN` yielding `False`), strings
lexicographically, and timestamps, and raise a `TypeError` on any other
kind combination — the `except` branch turns that into an
`Error applying filter` message. -/

/-- Ordering test for numbers. -/
def ordHoldsR (op : String) (p q : Rat) : Bool :=
  if op = ">=" then decide (q ≤ p)
  else if op = "<=" then decide (p ≤ q)
  else if op = ">" then decide (q < p)
  else decide (p < q)

/-- Ordering test for strings (lexicographic, as Python compares them). -/
def ordHoldsS (op : String) (p q : String) : Bool :=
  if op = ">=" then decide (¬ p < q)
  else if op = "<=" then decide (¬ q < p)
  else if op = ">" then decide (q < p)
  else decide (p < q)

/-- One cell against the filter value under operator `op`; `none` models a
raised `TypeError`. -/
def condTest (op : String) (fval cell : PyVal) : Option Bool :=
  if op = "==" then some (pyEq cell fval)
  else match cell, fval with
    | .num p, .num q => some (ordHoldsR op p q)
    | .bool b, .num q => some (ordHoldsR op (if b then 1 else 0) q)
    | .num p, .bool b => some (ordHoldsR op p (if b then 1 else 0))
    | .bool a, .bool b => some (ordHoldsR op (if a then 1 else 0) (if b then 1 else 0))
    | .none_, .num _ => some false
    | .none_, .bool _ => some false
    | .str s, .str t => some (ordHoldsS op s t)
    | .ts m, .ts n => some (ordHoldsR op m n)
    | _, _ => none

/-- Row selection `filtered_df[filtered_df[c] op v]`: keep the rows whose
cell at index `i` passes; `none` when the series comparison raises. -/
def filterRowsBy (rows : List (List PyVal)) (i : Nat) (test : PyVal → Option Bool) :
    Option (List (List PyVal)) :=
  match rows with
  | [] => some []
  | r :: rs =>
    match test (r.getD i .none_), filterRowsBy rs i test with
    | some b, some rest => some (if b then r :: rest else rest)
    | _, _ => none

/-- One iteration of the filter loop: column-existence check, then the
operator `elif` chain (an operator outside the five leaves the frame
unchanged — unreachable on parser-validated conditions). -/
def applyOneFilter (df : DataFrame) (cond : PyVal) : Except String DataFrame :=
  match dget cond "column", dget cond "value" with
  | some fcol, some fval =>
    let operator := (dget cond "operator").getD (.str "==")
    if ¬ inColumns fcol df.cols then
      .error s!"Filter column '{pyStr fcol}' not found in dataset."
    else
      match operator with
      | .str op =>
        if op ∈ validOps then
          match df.colIdx (asColName fcol) with
          | some i =>
            (match filterRowsBy df.rows i (condTest op fval) with
             | some kept => .ok ⟨df.cols, kept⟩
             | none => .error "Error applying filter: unsupported comparison")
          | none => .ok df
        else .ok df
      | _ => .ok df
  | _, _ => .error "KeyError"

/-- The filter loop over the parsed condition list: first failure aborts
(`return` in `main`), skipping every remaining condition. -/
def apply_filter_loop (df : DataFrame) : List PyVal → Except String DataFrame
  | [] => .ok df
  | cond :: rest =>
    match applyOneFilter df cond with
    | .ok df₂ => apply_filter_loop df₂ rest
    | .error e => .error e

/-- The dispatch test of `main` (src/app.py line 106):
`action["type"] == "summarize"` — an exact, case-sensitive string
comparison. -/
def routesToSummary (action : PyVal) : Bool :=
  pyEq ((dget action "type").getD .none_) (.str "summarize")

/-! ## `visualizer.py` -/

/-- `value_counts` of a cell list: distinct non-missing values with their
multiplicities (pandas sorts by count; the order is irrelevant to every
theorem below, so first-appearance order is used). -/
def valueCounts (cells : List PyVal) : List (PyVal × Nat) :=
  (cells.filter (fun v => v ≠ .none_)).foldl
    (fun acc v =>
      if acc.any (fun p => p.1 = v) then
        acc.map (fun p => if p.1 = v then (p.1, p.2 + 1) else p)
      else acc ++ [(v, 1)])
    []

/-- The sort key of a row for the line chart's time sort: its timestamp in
column `i`. -/
def rowTsKey (i : Nat) (row : List PyVal) : Int :=
  match row.getD i .none_ with
  | .ts n => n
  | _ => 0

/-- Insert one row into a row list sorted by the timestamp in column `i`. -/
def insertRowByTs (i : Nat) (r : List PyVal) : List (List PyVal) → List (List PyVal)
  | [] => [r]
  | s :: ss =>
    if rowTsKey i r ≤ rowTsKey i s then r :: s :: ss else s :: insertRowByTs i r ss

/-- Sort rows by the cell at index `i` (insertion sort on the timestamp
value; used by the line chart when the x column is datetime-dtyped). -/
def sortRowsByTs (i : Nat) : List (List PyVal) → List (List PyVal)
  | [] => []
  | r :: rs => insertRowByTs i r (sortRowsByTs i rs)

/-- The opaque chart specification handed to the rendering surface: the
plotly-express call and its data arguments. -/
inductive Figure where
  | histogram (df : DataFrame) (column : String)
  | barXY (df : DataFrame) (x y : String)
  | barCount (counts : List (PyVal × Nat)) (x : String)
  | scatter (df : DataFrame) (x y : String)
  | line (df : DataFrame) (x y : String)
  deriving Repr, DecidableEq

/-- Stand-in for `f"Error generating visualization: {str(e)}"` (raised by
`.capitalize()` on a non-string parameter or by plotly on a missing
column; the exception's own text is not modelled). -/
def vizExcMsg : String := "Error generating visualization: exception"

/-- `generate_visualization`. -/
def generate_visualization (df : DataFrame) (action : PyVal) :
    Option Figure × Option String :=
  match (dget action "type").getD (.str "") with
  | .str ty =>
    let actionType := strLower ty
    if actionType = "histogram" then
      match (dget action "column").getD .none_ with
      | .str c => if df.cols.contains c then (some (.histogram df c), none) else (none, some vizExcMsg)
      | _ => (none, some vizExcMsg)
    else if actionType = "bar" then
      let x := (dget action "x").getD .none_
      let y := (dget action "y").getD .none_
      if pyTruthy y then
        match x, y with
        | .str xs, .str ys =>
          if df.cols.contains xs ∧ df.cols.contains ys then (some (.barXY df xs ys), none)
          else (none, some vizExcMsg)
        | _, _ => (none, some vizExcMsg)
      else
        match x with
        | .str xs =>
          if df.cols.contains xs then (some (.barCount (valueCounts (df.colVals xs)) xs), none)
          else (none, some vizExcMsg)
        | _ => (none, some vizExcMsg)
    else if actionType = "scatter" then
      match (dget action "x").getD .none_, (dget action "y").getD .none_ with
      | .str xs, .str ys =>
        if df.cols.contains xs ∧ df.cols.contains ys then (some (.scatter df xs ys), none)
        else (none, some vizExcMsg)
      | _, _ => (none, some vizExcMsg)
    else if actionType = "line" then
      match (dget action "x").getD .none_, (dget action "y").getD .none_ with
      | .str xs, .str ys =>
        if df.cols.contains xs ∧ df.cols.contains ys then
          let dfSorted := if datetimeDtype (df.colVals xs) then
              match df.colIdx xs with
              | some i => (⟨df.cols, sortRowsByTs i df.rows⟩ : DataFrame)
              | none => df
            else df
          (some (.line dfSorted xs ys), none)
        else (none, some vizExcMsg)
      | _, _ => (none, some vizExcMsg)
    else (none, some s!"Visualization type '{actionType}' not supported.")
  | _ => (none, some vizExcMsg)

/-! ## `generate_summary_statistics` (src/visualizer.py)

The numeric statistics are exact rationals; the code's `Std Dev` is the
square root of the sample variance recorded here (the square root exists
only as a float and is presentational), and `Percentage` is recorded as
the rational the code formats with `"%.2f"`. -/

/-- Insertion of a rational into a sorted list (for the median). -/
def insertRat (q : Rat) : List Rat → List Rat
  | [] => [q]
  | r :: rs => if q ≤ r then q :: r :: rs else r :: insertRat q rs

/-- Insertion sort of rationals. -/
def sortRats : List Rat → List Rat
  | [] => []
  | q :: qs => insertRat q (sortRats qs)

/-- `Series.mean` of the non-missing numeric values (0 stands for the NaN
an empty series would produce). -/
def ratMean (xs : List Rat) : Rat :=
  xs.sum / (xs.length : Rat)

/-- `Series.median`. -/
def ratMedian (xs : List Rat) : Rat :=
  let s := sortRats xs
  let n := s.length
  if n = 0 then 0
  else if n % 2 = 1 then s.getD (n / 2) 0
  else (s.getD (n / 2 - 1) 0 + s.getD (n / 2) 0) / 2

/-- `Series.min` (0 for the empty series). -/
def ratMin (xs : List Rat) : Rat :=
  match xs with
  | [] => 0
  | x :: rest => rest.foldl min x

/-- `Series.max` (0 for the empty series). -/
def ratMax (xs : List Rat) : Rat :=
  match xs with
  | [] => 0
  | x :: rest => rest.foldl max x

/-- Sample variance, `Series.std` squared (0 when fewer than two values,
where pandas reports NaN). -/
def ratSampleVar (xs : List Rat) : Rat :=
  let n := xs.length
  if n ≤ 1 then 0
  else
    let μ := ratMean xs
    (xs.map (fun x => (x - μ) * (x - μ))).sum / ((n : Rat) - 1)

/-- The numeric values of a numeric-dtyped column (bools count as 0/1). -/
def numValues (cells : List PyVal) : List Rat :=
  cells.filterMap fun v => match v with
    | .num q => some q
    | .bool b => some (if b then 1 else 0)
    | _ => none

/-- First entry of maximal count (`value_counts().idxmax()` /`.max()`). -/
def topOfCounts (vc : List (PyVal × Nat)) : Option (PyVal × Nat) :=
  vc.foldl
    (fun acc p => match acc with
      | none => some p
      | some q => if p.2 > q.2 then some p else some q)
    none

/-- The numeric statistics block of a summary row. -/
structure NumStats where
  mean : Rat
  median : Rat
  minVal : Rat
  maxVal : Rat
  sampleVariance : Rat
  deriving Repr, DecidableEq

/-- The categorical statistics block of a summary row: distinct-value
count and, when the cardinality is below 50, the most frequent value with
its count and percentage of non-missing rows. -/
structure CatStats where
  unique : Nat
  top : Option (String × Nat × Rat)
  deriving Repr, DecidableEq

/-- One row of the summary table. -/
structure SummaryRow where
  column : String
  dtype : String
  count : Nat
  missing : Nat
  numeric : Option NumStats
  categorical : Option CatStats
  deriving Repr, DecidableEq

/-- The summary row of one existing column. -/
def summaryRowFor (df : DataFrame) (c : String) : SummaryRow :=
  let cells := df.colVals c
  let nonNull := cells.filter (fun v => v ≠ .none_)
  let cnt := nonNull.length
  let mss := cells.length - cnt
  let dtypeLbl := if numericDtype cells then "float64"
    else if datetimeDtype cells then "datetime64[ns]" else "object"
  if numericDtype cells then
    let xs := numValues cells
    ⟨c, dtypeLbl, cnt, mss,
     some ⟨ratMean xs, ratMedian xs, ratMin xs, ratMax xs, ratSampleVar xs⟩, none⟩
  else
    let uniq := nonNull.dedup.length
    let top := if uniq < 50 then
        some (match topOfCounts (valueCounts cells) with
          | some (v, n) => (pyStr v, n, if cnt > 0 then (n : Rat) / (cnt : Rat) * 100 else 0)
          | none => ("None", 0, 0))
      else none
    ⟨c, dtypeLbl, cnt, mss, none, some ⟨uniq, top⟩⟩

/-- The summary rows for a requested column list: columns absent from the
dataframe are skipped (`continue`), as is any non-string entry (it can
never be a member of the column index). -/
def summaryRows (df : DataFrame) (items : List PyVal) : List SummaryRow :=
  items.filterMap fun v => match v with
    | .str c => if df.cols.contains c then some (summaryRowFor df c) else none
    | _ => none

/-- `generate_summary_statistics`.  The requested list is
`action.get("columns", df.columns.tolist())`; Python iteration over a
string or dict visits its characters / keys, and iterating a non-iterable
raises the `TypeError` the `except` converts into a message. -/
def generate_summary_statistics (df : DataFrame) (action : PyVal) :
    Option (List SummaryRow) × Option String :=
  match (dget action "columns").getD (.list (df.cols.map .str)) with
  | .list items => (some (summaryRows df items), none)
  | .str s => (some (summaryRows df (s.data.map (fun ch => .str (String.mk [ch])))), none)
  | .dict kvs => (some (summaryRows df (kvs.map (fun kv => .str kv.1))), none)
  | _ => (none, some "Error generating summary statistics: type error")

/-! ## `create_action_from_ui` (src/visualizer.py)

The streamlit widgets are modelled by explicit user choices: a selectbox
returns the option at the chosen index (clamped to the first option, and
`None` when the option list is empty, as streamlit does), a checkbox a
boolean, a multiselect the chosen sublist. -/

/-- The user's selections in the manual builder form. -/
structure UIChoices where
  vizType : String
  histCol : Nat
  barX : Nat
  useY : Bool
  barY : Nat
  scatterX : Nat
  scatterY : Nat
  lineX : Nat
  lineY : Nat
  useAllCols : Bool
  selectedCols : List String
  deriving Repr, DecidableEq

/-- `st.selectbox`: the chosen option, the first option when the index is
out of range, `None` when there are no options. -/
def selectbox (opts : List String) (i : Nat) : Option String :=
  match opts.get? i with
  | some s => some s
  | none => opts.head?

/-- A selectbox result stored into an action dict (`None` stays `None`). -/
def optToVal : Option String → PyVal
  | some s => .str s
  | none => .none_

/-- `create_action_from_ui`: builds `(action, description)`, or
`(None, None)` when the selected type's prerequisites are unmet. -/
def create_action_from_ui (df : DataFrame) (ch : UIChoices) :
    Option PyVal × Option String :=
  let numericCols := df.cols.filter (fun c => numericDtype (df.colVals c))
  let allCols := df.cols
  if ch.vizType = "histogram" then
    let column := selectbox (if numericCols.isEmpty then allCols else numericCols) ch.histCol
    (some (.dict [("type", .str ch.vizType), ("column", optToVal column)]),
     some s!"Distribution of {pyStr (optToVal column)}")
  else if ch.vizType = "bar" then
    let x := selectbox allCols ch.barX
    if ch.useY ∧ ¬ numericCols.isEmpty then
      let y := selectbox numericCols ch.barY
      (some (.dict [("type", .str ch.vizType), ("x", optToVal x), ("y", optToVal y)]),
       some s!"Bar chart showing {pyStr (optToVal y)} by {pyStr (optToVal x)}")
    else
      (some (.dict [("type", .str ch.vizType), ("x", optToVal x)]),
       some s!"Bar chart showing count of {pyStr (optToVal x)}")
  else if ch.vizType = "scatter" then
    if numericCols.length ≥ 2 then
      let x := (selectbox numericCols ch.scatterX).getD ""
      let remaining := numericCols.filter (fun c => c ≠ x)
      let y := selectbox remaining ch.scatterY
      (some (.dict [("type", .str ch.vizType), ("x", .str x), ("y", optToVal y)]),
       some s!"Scatter plot showing relationship between {x} and {pyStr (optToVal y)}")
    else (none, none)
  else if ch.vizType = "line" then
    let timeCols := detect_time_columns df
    let xOptions := if timeCols.isEmpty then allCols else timeCols
    let x := selectbox xOptions ch.lineX
    if ¬ numericCols.isEmpty then
      let y := selectbox numericCols ch.lineY
      (some (.dict [("type", .str ch.vizType), ("x", optToVal x), ("y", optToVal y)]),
       some s!"Line chart showing {pyStr (optToVal y)} over {pyStr (optToVal x)}")
    else (none, none)
  else if ch.vizType = "summarize" then
    if ¬ ch.useAllCols then
      (some (.dict [("type", .str ch.vizType), ("columns", .list (ch.selectedCols.map .str))]),
       some (let sep := ", "
             s!"Summary statistics for columns: {String.intercalate sep ch.selectedCols}"))
    else
      (some (.dict [("type", .str ch.vizType), ("columns", .list (allCols.map .str))]),
       some "Summary statistics for all columns")
  else (some (.dict [("type", .str ch.vizType)]), some "")

/-! ## The query-handling flow of `main` (src/app.py)

`main` materializes the working frame with `filtered_df = df.copy()`; the
session dataframe `df` itself is never passed to a mutating call, so its
final state is `df` by the aliasing structure of the source.  The first
component of the outcome is that final state. -/

/-- The post-parse block of `main`: copy, filter loop, dispatch on the
exact string `"summarize"`, and the producer call.  Returns the final
state of the session dataframe together with the stage error (if any). -/
def app_viz_flow (df : DataFrame) (conds : List PyVal) (action : PyVal) :
    DataFrame × Option String :=
  let filtered := df
  match apply_filter_loop filtered conds with
  | .error e => (df, some e)
  | .ok f₂ =>
    if routesToSummary action then
      (df, (generate_summary_statistics f₂ action).2)
    else
      let p := prepare_data_for_visualization f₂ action
      match p.result with
      | none => (df, p.error)
      | some prepared => (df, (generate_visualization prepared action).2)

/-! ## Spec-side extraction descriptions (for claim C1)

`firstBalancedSpan` renders the claim's words for extraction strategy 2 —
"the first top-level balanced `{...}` span in the text".  `specCandidate` /
`specExtract` render the amended description — the leftmost-starting regex
candidate, where the brace alternative is the greedy span from a `{` to the
last `}` — as an index-based "first position such that" computation, to be
proved equal to the recursive `reSearch`/`safe_json_parse`. -/

/-- Scan for the closing brace of a span opened at depth `d`. -/
def takeBalanced : Nat → List Char → Option (List Char)
  | _, [] => none
  | d, c :: cs =>
    if c = '{' then (takeBalanced (d + 1) cs).map (c :: ·)
    else if c = '}' then
      if d = 1 then some [c] else (takeBalanced (d - 1) cs).map (c :: ·)
    else (takeBalanced d cs).map (c :: ·)

/-- The first top-level balanced `{...}` span of a text, per the claim's
description of extraction strategy 2. -/
def firstBalancedSpan (t : String) : Option String :=
  match t.data.dropWhile (fun c => c ≠ '{') with
  | [] => none
  | s => (takeBalanced 0 s).map String.mk

/-- Whether the fence alternative of the regex matches at the start of a
suffix: an opening ` ```json ` fence with a closing ` ``` ` after it. -/
def fenceAt (t : List Char) : Bool :=
  fenceOpen.isPrefixOf t && (splitAtFence (t.drop 7)).isSome

/-- Whether the brace alternative matches at the start of a suffix: a `{`
with some `}` after it. -/
def braceAt : List Char → Bool
  | c :: r => c = '{' && r.contains '}'
  | [] => false

/-- The first position of the text whose suffix satisfies `P`. -/
def firstPos (P : List Char → Bool) (s : List Char) : Option Nat :=
  (List.range (s.length + 1)).find? (fun i => P (s.drop i))

/-- The groups of a fence-alternative match starting at the given suffix:
group 1 is the fence body with surrounding whitespace absorbed, group 0
the full match up to the first closing fence. -/
def fenceGroups (t : List Char) : Option (Option String × String) :=
  match splitAtFence (t.drop 7) with
  | some p => some (some (String.mk p.1).trim, String.mk (t.take (7 + p.1.length + 3)))
  | none => none

/-- The groups of a brace-alternative match starting at the given suffix:
no group 1, group 0 the greedy span to the last `}`. -/
def braceGroups : List Char → Option (Option String × String)
  | c :: cs => some (none, String.mk (c :: takeToLast '}' cs))
  | [] => none

/-- The leftmost-starting regex candidate, fence alternative preferred at
equal positions (they can never coincide: a fence starts with a backtick,
a brace span with `{`). -/
def specCandidate (s : List Char) : Option (Option String × String) :=
  match firstPos fenceAt s, firstPos braceAt s with
  | some i, some j => if i ≤ j then fenceGroups (s.drop i) else braceGroups (s.drop j)
  | some i, none => fenceGroups (s.drop i)
  | none, some j => braceGroups (s.drop j)
  | none, none => none

/-- The amended extraction description: parse the leftmost regex candidate
(fence body when non-empty, else the full match), falling back to the
first-`{`-to-last-`}` substring. -/
def specExtract (text : String) : Option PyVal :=
  match specCandidate text.data with
  | some (g1, g0) =>
    let candidate := match g1 with
      | some s => if s = "" then g0 else s
      | none => g0
    match loads candidate with
    | some v => some v
    | none => jsonFallback text
  | none => jsonFallback text

theorem firstPos_nil (P : List Char → Bool) :
    firstPos P [] = if P [] then some 0 else none := by
  unfold firstPos
  rw [show List.range (List.length ([] : List Char) + 1) = [0] from rfl]
  rw [List.find?_cons]
  cases h : P (List.drop 0 []) <;> simp_all

theorem firstPos_cons (P : List Char → Bool) (c : Char) (cs : List Char) :
    firstPos P (c :: cs) =
      if P (c :: cs) then some 0 else (firstPos P cs).map (· + 1) := by
  unfold firstPos
  rw [show (c :: cs).length + 1 = (cs.length + 1) + 1 from rfl, List.range_succ_eq_map]
  rw [List.find?_cons]
  cases h : P (c :: cs)
  · have hd : P ((c :: cs).drop 0) = false := h
    rw [hd, List.find?_map]
    have h₂ : ((fun i => P ((c :: cs).drop i)) ∘ Nat.succ) = fun i => P (cs.drop i) := by
      funext i
      simp [Function.comp, List.drop_succ_cons]
    rw [h₂]
    simp [h]
  · have hd : P ((c :: cs).drop 0) = true := h
    rw [hd]
    simp [h]

theorem specCandidate_shift (c : Char) (cs : List Char)
    (hf : fenceAt (c :: cs) = false) (hb : braceAt (c :: cs) = false) :
    specCandidate (c :: cs) = specCandidate cs := by
  unfold specCandidate
  rw [firstPos_cons, firstPos_cons, hf, hb]
  simp only [Bool.false_eq_true, if_false]
  cases hcf : firstPos fenceAt cs <;> cases hcb : firstPos braceAt cs <;>
    simp [List.drop_succ_cons]

theorem fence_head (c : Char) (cs : List Char)
    (h : fenceOpen.isPrefixOf (c :: cs) = true) : c = '`' := by
  have h₂ : (('`' : Char) == c && List.isPrefixOf "``json".data cs) = true := h
  have h₃ := (Bool.and_eq_true _ _).mp h₂
  exact (beq_iff_eq.mp h₃.1).symm

theorem specCandidate_here_fence (s : List Char) (h : fenceAt s = true) :
    specCandidate s = fenceGroups s := by
  cases s with
  | nil => exact absurd h (by decide)
  | cons c cs =>
    have hpre : fenceOpen.isPrefixOf (c :: cs) = true :=
      ((Bool.and_eq_true _ _).mp h).1
    have hc : c = '`' := fence_head c cs hpre
    have hba : braceAt (c :: cs) = false := by
      subst hc
      simp [braceAt]
    unfold specCandidate
    rw [firstPos_cons, firstPos_cons, h, hba]
    cases hcb : firstPos braceAt cs <;> simp

theorem specCandidate_here_brace (s : List Char) (hf : fenceAt s = false)
    (hb : braceAt s = true) : specCandidate s = braceGroups s := by
  cases s with
  | nil => exact absurd hb (by decide)
  | cons c cs =>
    unfold specCandidate
    rw [firstPos_cons, firstPos_cons, hf, hb]
    cases hcf : firstPos fenceAt cs <;> simp

theorem reSearch_eq_specCandidate (s : List Char) : reSearch s = specCandidate s := by
  induction s with
  | nil =>
    unfold specCandidate
    rw [firstPos_nil, firstPos_nil]
    simp [reSearch, show fenceAt [] = false from rfl, show braceAt [] = false from rfl]
  | cons c cs ih =>
    by_cases hpre : fenceOpen.isPrefixOf (c :: cs) = true
    · have hc : c = '`' := fence_head c cs hpre
      have hba : braceAt (c :: cs) = false := by
        subst hc
        simp [braceAt]
      cases hsp : splitAtFence ((c :: cs).drop 7) with
      | some p =>
        have hfa : fenceAt (c :: cs) = true := by
          unfold fenceAt
          rw [hpre, hsp]
          rfl
        rw [specCandidate_here_fence _ hfa]
        have hfg : fenceGroups (c :: cs) =
            some (some (String.mk p.1).trim, String.mk ((c :: cs).take (7 + p.1.length + 3))) := by
          unfold fenceGroups
          rw [hsp]
        rw [hfg]
        simp only [reSearch, hpre, eq_self_iff_true, if_true, hsp]
      | none =>
        have hfa : fenceAt (c :: cs) = false := by
          unfold fenceAt
          rw [hsp]
          simp
        have lhs : reSearch (c :: cs) = reSearch cs := by
          simp only [reSearch, hpre, eq_self_iff_true, if_true, hsp]
        rw [lhs, ih, specCandidate_shift c cs hfa hba]
    · have hfa : fenceAt (c :: cs) = false := by
        unfold fenceAt
        rw [Bool.and_eq_false_iff]
        left
        exact Bool.not_eq_true _ ▸ (by simpa using hpre)
      by_cases hbc : c = '{' ∧ '}' ∈ cs
      · obtain ⟨hc, hmem⟩ := hbc
        have hba : braceAt (c :: cs) = true := by
          simp [braceAt, hc, List.elem_iff.mpr hmem]
          exact hmem
        have lhs : reSearch (c :: cs) = some (none, String.mk (c :: takeToLast '}' cs)) := by
          simp only [reSearch]
          rw [if_neg (by simpa using hpre), if_pos ⟨hc, hmem⟩]
        rw [lhs, specCandidate_here_brace _ hfa hba]
        rfl
      · have hba : braceAt (c :: cs) = false := by
          rcases not_and_or.mp hbc with h | h
          · simp [braceAt, h]
          · simp only [braceAt, Bool.and_eq_false_iff]
            right
            rw [← Bool.not_eq_true]
            intro hcontains
            exact absurd (List.elem_iff.mp hcontains) h
        have lhs : reSearch (c :: cs) = reSearch cs := by
          simp only [reSearch]
          rw [if_neg (by simpa using hpre), if_neg hbc]
        rw [lhs, ih, specCandidate_shift c cs hfa hba]

theorem safe_json_parse_eq_specExtract (t : String) : safe_json_parse t = specExtract t := by
  unfold safe_json_parse specExtract
  rw [reSearch_eq_specCandidate]

/-! ## Claim C1 -/

/-- C1, counterexample.  On the response text `{"a":1}}` the claim's
extraction strategy 2 — "the first top-level balanced `{...}` span" —
finds `{"a":1}` and parses it, so under the claimed strategy order the
parse would succeed; the implementation's brace alternative is instead the
greedy span from the first `{` to the *last* `}` (here `{"a":1}}`, invalid
JSON, as is the identical final-fallback substring), so
`parse_llm_response` returns the could-not-parse error. -/
theorem C1_balanced_span_counterexample :
    (firstBalancedSpan "\x7b\"a\":1\x7d\x7d").bind loads =
      some (.dict [("a", .num 1)]) ∧
    parse_llm_response "\x7b\"a\":1\x7d\x7d" =
      parseErr "Could not parse LLM response as JSON." := by
  constructor
  · rfl
  · rfl

/-- C1, amended: the extractor takes the leftmost-starting regex candidate
— a ` ```json ` fence (body used, trimmed; the full match when the body is
empty) or the greedy span from a `{` to the last `}` — and, if that
candidate is not valid JSON, falls back to the substring between the first
`{` and the last `}`; when no candidate yields valid JSON,
`parse_llm_response` returns exactly the error
`Could not parse LLM response as JSON.` with no partial data. -/
theorem C1_extraction_amended (t : String) (ht : t ≠ "") :
    safe_json_parse t = specExtract t ∧
    (safe_json_parse t = none →
      parse_llm_response t = parseErr "Could not parse LLM response as JSON.") := by
  refine ⟨safe_json_parse_eq_specExtract t, fun h => ?_⟩
  simp only [parse_llm_response, if_neg ht, h]

/-- Witness for `C1_extraction_amended` at the concrete response
`no json here` (no extractable JSON). -/
theorem C1_extraction_amended_witness :
    safe_json_parse "no json here" = specExtract "no json here" ∧
    (safe_json_parse "no json here" = none →
      parse_llm_response "no json here" = parseErr "Could not parse LLM response as JSON.") :=
  C1_extraction_amended "no json here" (by decide)

/-! ## Claim C5 -/

theorem prep_exclusive (df : DataFrame) (a : PyVal) :
    ((prepare_data_for_visualization df a).result.isSome ↔
      (prepare_data_for_visualization df a).error = none) := by
  unfold prepare_data_for_visualization
  repeat' split <;> try simp

theorem viz_exclusive (df : DataFrame) (a : PyVal) :
    ((generate_visualization df a).1.isSome ↔ (generate_visualization df a).2 = none) := by
  unfold generate_visualization
  repeat' split <;> try simp

theorem summ_exclusive (df : DataFrame) (a : PyVal) :
    ((generate_summary_statistics df a).1.isSome ↔
      (generate_summary_statistics df a).2 = none) := by
  unfold generate_summary_statistics
  repeat' split <;> try simp

set_option maxHeartbeats 1000000 in
theorem parse_exclusive (t : String) :
    ((parse_llm_response t).action.isSome ↔ (parse_llm_response t).error = none) ∧
    ((parse_llm_response t).error.isSome →
      (parse_llm_response t).action = none ∧ (parse_llm_response t).description = none ∧
      (parse_llm_response t).filters = none) := by
  unfold parse_llm_response
  repeat' split <;> try simp [parseErr]

/-- C5: every stage returns a result exactly when it returns no error:
`parse_llm_response` yields `(None, None, None, error)` on every failure
path and a populated action with no error on success, and
`prepare_data_for_visualization`, `generate_visualization` and
`generate_summary_statistics` each yield `(None, error)` on failure and
`(result, None)` on success — never both, never neither. -/
theorem C5_stage_result_xor_error (t : String) (df : DataFrame) (a : PyVal) :
    ((parse_llm_response t).action.isSome ↔ (parse_llm_response t).error = none) ∧
    ((parse_llm_response t).error.isSome →
      (parse_llm_response t).action = none ∧ (parse_llm_response t).description = none ∧
      (parse_llm_response t).filters = none) ∧
    ((prepare_data_for_visualization df a).result.isSome ↔
      (prepare_data_for_visualization df a).error = none) ∧
    ((generate_visualization df a).1.isSome ↔ (generate_visualization df a).2 = none) ∧
    ((generate_summary_statistics df a).1.isSome ↔
      (generate_summary_statistics df a).2 = none) :=
  ⟨(parse_exclusive t).1, (parse_exclusive t).2, prep_exclusive df a,
   viz_exclusive df a, summ_exclusive df a⟩

/-! ## Claim C10 -/

/-- C10: `validate_data` fails exactly on a missing or empty dataframe,
and the third branch's message `The uploaded file contains no columns.` is
unreachable — a dataframe with zero columns is already `empty` (pandas
`DataFrame.empty` is true when any axis has length 0), so the second
branch fires first. -/
theorem C10_validate_data_no_columns_unreachable (odf : Option DataFrame) :
    ((validate_data odf).1 = false ↔
      odf = none ∨ ∃ df, odf = some df ∧ df.empty = true) ∧
    (validate_data odf).2 ≠ "The uploaded file contains no columns." := by
  cases odf with
  | none =>
    refine ⟨by simp [validate_data], ?_⟩
    simp only [validate_data]
    decide
  | some df =>
    by_cases h : df.empty = true
    · refine ⟨?_, ?_⟩
      · simp only [validate_data, h, if_true]
        simp [h]
      · simp only [validate_data, h, if_true]
        decide
    · have hcols : ¬ df.cols.length < 1 := by
        intro hlt
        have hnil : df.cols = [] := List.eq_nil_of_length_eq_zero (Nat.lt_one_iff.mp hlt)
        have : df.empty = true := by
          simp [DataFrame.empty, hnil]
        exact h this
      refine ⟨?_, ?_⟩
      · simp only [validate_data, h, if_false, hcols, if_neg hcols]
        simp [h]
      · simp only [validate_data, if_neg h, if_neg hcols]
        decide

/-! ## Claim C3 -/

/-- The condition dict the parser hands to the filter loop, built from a
`(column, operator, value)` triple. -/
def mkCond (t : String × String × PyVal) : PyVal :=
  .dict [("column", .str t.1), ("operator", .str t.2.1), ("value", t.2.2)]

/-- Whether a row passes one condition (the claim's row-selection
predicate): the cell in the condition's column satisfies the operator
against the value. -/
def condPassC (cols : List String) (t : String × String × PyVal) (r : List PyVal) : Bool :=
  match cols.indexOf? t.1 with
  | some i => (condTest t.2.1 t.2.2 (r.getD i .none_)).getD false
  | none => false

/-- Whether one condition evaluates without a pandas `TypeError` on every
row of the frame. -/
def condDefinedB (df : DataFrame) (t : String × String × PyVal) : Bool :=
  match df.cols.indexOf? t.1 with
  | some i => df.rows.all (fun r => (condTest t.2.1 t.2.2 (r.getD i .none_)).isSome)
  | none => true

theorem dget_mkCond_column (t : String × String × PyVal) :
    dget (mkCond t) "column" = some (.str t.1) := rfl

theorem dget_mkCond_operator (t : String × String × PyVal) :
    dget (mkCond t) "operator" = some (.str t.2.1) := rfl

theorem dget_mkCond_value (t : String × String × PyVal) :
    dget (mkCond t) "value" = some t.2.2 := rfl

theorem indexOf?_isSome_of_mem {c : String} {l : List String} (h : c ∈ l) :
    ∃ i, l.indexOf? c = some i := by
  cases hi : l.indexOf? c with
  | some i => exact ⟨i, rfl⟩
  | none =>
    have := List.indexOf?_eq_none_iff.mp hi c h
    simp at this

theorem filterRowsBy_total (rows : List (List PyVal)) (i : Nat) (test : PyVal → Option Bool)
    (h : ∀ r ∈ rows, (test (r.getD i .none_)).isSome) :
    filterRowsBy rows i test =
      some (rows.filter (fun r => (test (r.getD i .none_)).getD false)) := by
  induction rows with
  | nil => rfl
  | cons r rs ih =>
    obtain ⟨b, hb⟩ := Option.isSome_iff_exists.mp (h r (by simp))
    rw [filterRowsBy, hb, ih (fun r' hr' => h r' (by simp [hr']))]
    cases b <;> simp only [List.filter_cons, hb, Option.getD_some]

theorem applyOneFilter_mk (df : DataFrame) (t : String × String × PyVal)
    (hcol : t.1 ∈ df.cols) (hop : t.2.1 ∈ validOps)
    (hdef : condDefinedB df t = true) :
    applyOneFilter df (mkCond t) =
      .ok ⟨df.cols, df.rows.filter (condPassC df.cols t)⟩ := by
  obtain ⟨i, hi⟩ := indexOf?_isSome_of_mem hcol
  have hdef₂ : ∀ r ∈ df.rows, (condTest t.2.1 t.2.2 (r.getD i .none_)).isSome = true := by
    intro r hr
    have := hdef
    unfold condDefinedB at this
    rw [hi] at this
    simp only [List.all_eq_true] at this
    exact this r hr
  simp only [applyOneFilter, dget_mkCond_column, dget_mkCond_operator, dget_mkCond_value,
    Option.getD_some]
  rw [if_neg (by simp [inColumns, hcol])]
  rw [if_pos hop]
  have hidx : df.colIdx (asColName (.str t.1)) = some i := hi
  have hpred : (fun r => (condTest t.2.1 t.2.2 (r.getD i .none_)).getD false) =
      condPassC df.cols t := by
    funext r
    simp [condPassC, hi]
  simp only [hidx]
  change (match filterRowsBy df.rows i (condTest t.2.1 t.2.2) with
    | some kept => (Except.ok ⟨df.cols, kept⟩ : Except String DataFrame)
    | none => Except.error "Error applying filter: unsupported comparison") = _
  rw [filterRowsBy_total _ _ _ hdef₂, hpred]

theorem apply_filter_loop_cons_ok (df d : DataFrame) (c : PyVal) (l : List PyVal)
    (h : applyOneFilter df c = .ok d) :
    apply_filter_loop df (c :: l) = apply_filter_loop d l := by
  simp only [apply_filter_loop, h]

theorem apply_filter_loop_append (df : DataFrame) (l₁ l₂ : List PyVal) :
    apply_filter_loop df (l₁ ++ l₂) =
      (match apply_filter_loop df l₁ with
       | .ok d => apply_filter_loop d l₂
       | .error e => .error e) := by
  induction l₁ generalizing df with
  | nil => rfl
  | cons c cs ih =>
    rw [List.cons_append, apply_filter_loop, apply_filter_loop]
    cases applyOneFilter df c with
    | ok d => exact ih d
    | error e => rfl

theorem apply_filter_loop_conj (df : DataFrame) (ts : List (String × String × PyVal))
    (hcol : ∀ t ∈ ts, t.1 ∈ df.cols) (hop : ∀ t ∈ ts, t.2.1 ∈ validOps)
    (hdef : ∀ t ∈ ts, condDefinedB df t = true) :
    apply_filter_loop df (ts.map mkCond) =
      .ok ⟨df.cols, df.rows.filter (fun r => ts.all (fun t => condPassC df.cols t r))⟩ := by
  induction ts generalizing df with
  | nil =>
    simp only [List.map_nil, apply_filter_loop, List.all_nil, List.filter_true]
  | cons t ts ih =>
    rw [List.map_cons, apply_filter_loop_cons_ok df _ _ _
      (applyOneFilter_mk df t (hcol t (by simp)) (hop t (by simp)) (hdef t (by simp)))]
    have hsub : ∀ r, r ∈ df.rows.filter (condPassC df.cols t) → r ∈ df.rows :=
      fun r hr => (List.mem_filter.mp hr).1
    rw [ih ⟨df.cols, df.rows.filter (condPassC df.cols t)⟩
      (fun t' ht' => hcol t' (by simp [ht']))
      (fun t' ht' => hop t' (by simp [ht']))
      (fun t' ht' => by
        have h₀ := hdef t' (by simp [ht'])
        unfold condDefinedB at h₀ ⊢
        cases hi : List.indexOf? t'.1 df.cols with
        | none => rfl
        | some i =>
          rw [hi] at h₀
          simp only [List.all_eq_true] at h₀ ⊢
          exact fun r hr => h₀ r (hsub r hr))]
    rw [List.filter_filter]
    dsimp only
    congr 2
    apply List.filter_congr
    intro r hr
    rw [List.all_cons, Bool.and_comm]

set_option maxHeartbeats 800000 in
/-- C3: for a dataset and an ordered filter list whose columns all exist
(and whose comparisons are all well-typed for the frame's cells), the
filter loop of `main` returns exactly the rows satisfying every condition
— conjunction, set-intersection semantics — with each operator in
`{==, >=, <=, >, <}` acting as a row-selection predicate; and when a
condition's column is absent, the loop aborts with an error naming that
column, applying none of the remaining filters (the result does not
depend on them). -/
theorem C3_filter_conjunction (df : DataFrame) (ts : List (String × String × PyVal))
    (hcol : ∀ t ∈ ts, t.1 ∈ df.cols) (hop : ∀ t ∈ ts, t.2.1 ∈ validOps)
    (hdef : ∀ t ∈ ts, condDefinedB df t = true) :
    apply_filter_loop df (ts.map mkCond) =
      .ok ⟨df.cols, df.rows.filter (fun r => ts.all (fun t => condPassC df.cols t r))⟩ ∧
    (∀ (bad : String × String × PyVal) (rest : List PyVal), bad.1 ∉ df.cols →
      apply_filter_loop df (ts.map mkCond ++ mkCond bad :: rest) =
        .error s!"Filter column '{bad.1}' not found in dataset.") := by
  refine ⟨apply_filter_loop_conj df ts hcol hop hdef, fun bad rest hbad => ?_⟩
  rw [apply_filter_loop_append, apply_filter_loop_conj df ts hcol hop hdef]
  have hone : applyOneFilter ⟨df.cols, df.rows.filter
      (fun r => ts.all (fun t => condPassC df.cols t r))⟩ (mkCond bad) =
      .error s!"Filter column '{bad.1}' not found in dataset." := by
    simp only [applyOneFilter, dget_mkCond_column, dget_mkCond_operator, dget_mkCond_value]
    rw [if_pos (by simp [inColumns, hbad])]
    simp [pyStr]
  change apply_filter_loop ⟨df.cols, df.rows.filter
      (fun r => ts.all (fun t => condPassC df.cols t r))⟩ (mkCond bad :: rest) = _
  simp only [apply_filter_loop, hone]

/-- Witness for `C3_filter_conjunction` on a concrete three-row dataset
with the filter list `age >= 18 and sex == male`, plus the abort on the
absent column `height`. -/
theorem C3_filter_conjunction_witness :
    apply_filter_loop
        ⟨["age", "sex"],
         [[.num 30, .str "male"], [.num 10, .str "male"], [.num 40, .str "female"]]⟩
        ([("age", ">=", PyVal.num 18), ("sex", "==", PyVal.str "male")].map mkCond) =
      .ok ⟨["age", "sex"],
        ([[.num 30, .str "male"], [.num 10, .str "male"],
          [.num 40, .str "female"]] : List (List PyVal)).filter
          (fun r => [("age", ">=", PyVal.num 18), ("sex", "==", PyVal.str "male")].all
            (fun t => condPassC ["age", "sex"] t r))⟩ ∧
    apply_filter_loop
        ⟨["age", "sex"],
         [[.num 30, .str "male"], [.num 10, .str "male"], [.num 40, .str "female"]]⟩
        ([("age", ">=", PyVal.num 18), ("sex", "==", PyVal.str "male")].map mkCond ++
          mkCond ("height", "==", PyVal.num 1) :: []) =
      .error "Filter column 'height' not found in dataset." :=
  ⟨(C3_filter_conjunction _ _ (by decide) (by decide) (by decide)).1,
   (C3_filter_conjunction _ _ (by decide) (by decide) (by decide)).2
     ("height", "==", PyVal.num 1) [] (by decide)⟩

/-! ## Claim C4 -/

/-- C4, counterexample.  `prepare_data_for_visualization` does *not*
leave the dataframe passed in unchanged: its coercions are written
`df[column] = pd.to_numeric(...)`, assigning into the very object it
received.  On a one-column frame holding the string `"1"` with a
histogram action, the argument's final state has the column coerced to
numbers — it differs from the frame that was passed in. -/
theorem C4_inplace_counterexample :
    (prepare_data_for_visualization ⟨["a"], [[.str "1"]]⟩
        (.dict [("type", .str "histogram"), ("column", .str "a")])).argAfter ≠
      (⟨["a"], [[.str "1"]]⟩ : DataFrame) := by
  decide

/-- C4, amended: filtering operates on a working copy
(`filtered_df = df.copy()`), so the caller's original dataset is never
mutated by the query flow; but `prepare_data_for_visualization`'s
numeric coercion mutates the dataframe passed to it in place — its final
state is the frame with the coerced column (which in the app is the
working copy, so the original is still protected). -/
theorem C4_mutation_amended (df : DataFrame) (c : String) (hc : c ∈ df.cols)
    (hnum : numericDtype (df.colVals c) = false) :
    (prepare_data_for_visualization df
        (.dict [("type", .str "histogram"), ("column", .str c)])).argAfter =
      df.setCol c toNumericCell ∧
    (prepare_data_for_visualization df
        (.dict [("type", .str "histogram"), ("column", .str c)])).result =
      some (df.setCol c toNumericCell) ∧
    (∀ conds action, (app_viz_flow df conds action).1 = df) := by
  have htype : (dget (PyVal.dict [("type", .str "histogram"), ("column", .str c)])
      "type").getD (.str "") = .str "histogram" := rfl
  have hcol : dget (PyVal.dict [("type", .str "histogram"), ("column", .str c)])
      "column" = some (.str c) := rfl
  have hstep : prepare_data_for_visualization df
      (.dict [("type", .str "histogram"), ("column", .str c)]) =
      ⟨df.setCol c toNumericCell, some (df.setCol c toNumericCell), none⟩ := by
    simp only [prepare_data_for_visualization, htype, hcol, Option.getD_some]
    rw [if_pos (show strLower "histogram" = "histogram" from rfl)]
    rw [if_neg (by simp [inColumns, hc])]
    rw [if_neg (by simp [asColName, hnum])]
    rfl
  refine ⟨by rw [hstep], by rw [hstep], fun conds action => ?_⟩
  simp only [app_viz_flow]
  cases apply_filter_loop df conds with
  | error e => rfl
  | ok f₂ =>
    by_cases hr : routesToSummary action = true
    · simp [hr]
    · simp only [if_neg hr]
      cases (prepare_data_for_visualization f₂ action).result <;> rfl

/-- Witness for `C4_mutation_amended` at a concrete non-numeric column. -/
theorem C4_mutation_amended_witness :
    (prepare_data_for_visualization ⟨["a"], [[.str "1"]]⟩
        (.dict [("type", .str "histogram"), ("column", .str "a")])).argAfter =
      DataFrame.setCol ⟨["a"], [[.str "1"]]⟩ "a" toNumericCell ∧
    (prepare_data_for_visualization ⟨["a"], [[.str "1"]]⟩
        (.dict [("type", .str "histogram"), ("column", .str "a")])).result =
      some (DataFrame.setCol ⟨["a"], [[.str "1"]]⟩ "a" toNumericCell) ∧
    (∀ conds action, (app_viz_flow ⟨["a"], [[.str "1"]]⟩ conds action).1 =
      (⟨["a"], [[.str "1"]]⟩ : DataFrame)) :=
  C4_mutation_amended ⟨["a"], [[.str "1"]]⟩ "a" (by decide) (by decide)

/-! ## Claim C7 -/

/-- The per-type required keys of an action, as the response parser's
fixed table enumerates them (summarize and unknown types need none). -/
def hasRequiredKeys (a : PyVal) (t : String) : Bool :=
  if t = "histogram" then (dget a "column").isSome
  else if t = "bar" then (dget a "x").isSome
  else if t = "scatter" ∨ t = "line" then (dget a "x").isSome && (dget a "y").isSome
  else true

/-- C7, counterexample.  On a dataset with one numeric column and no
time-like column, the claim says the manual builder's line prerequisites
(one numeric column *plus* a time-like column) are unmet, so it should
return `(None, None)`; the code only requires a numeric column (when no
time column is detected every column is offered as x) and returns a
well-formed line action. -/
theorem C7_line_counterexample :
    detect_time_columns ⟨["n"], [[.num 1]]⟩ = [] ∧
    create_action_from_ui ⟨["n"], [[.num 1]]⟩ ⟨"line", 0, 0, false, 0, 0, 0, 0, 0, true, []⟩ =
      (some (.dict [("type", .str "line"), ("x", .str "n"), ("y", .str "n")]),
       some "Line chart showing n over n") := by
  decide

/-- C7, amended: the manual builder returns `(None, None)` — a silent
abort, not an error — exactly when for scatter the dataset has fewer than
two numeric columns, or for line it has no numeric column (a time-like
column is *not* required: when none is detected, any column may be chosen
as the x axis); otherwise it returns an action carrying the selected type
and its required keys. -/
theorem C7_manual_builder_amended (df : DataFrame) (ch : UIChoices) :
    (create_action_from_ui df ch = (none, none) ↔
      (ch.vizType = "scatter" ∧
        (df.cols.filter (fun c => numericDtype (df.colVals c))).length < 2) ∨
      (ch.vizType = "line" ∧
        df.cols.filter (fun c => numericDtype (df.colVals c)) = [])) ∧
    (∀ a d, create_action_from_ui df ch = (some a, d) →
      dget a "type" = some (.str ch.vizType) ∧ hasRequiredKeys a ch.vizType = true) := by
  constructor
  · unfold create_action_from_ui
    repeat' split <;> try simp_all <;> try omega
  · intro a d h
    simp only [create_action_from_ui] at h
    by_cases h₁ : ch.vizType = "histogram"
    · rw [if_pos h₁] at h
      obtain ⟨h2, -⟩ := Prod.mk.injEq .. ▸ h
      cases Option.some.inj h2
      exact ⟨by simp [dget], by simp [hasRequiredKeys, h₁, dget]⟩
    · rw [if_neg h₁] at h
      by_cases h₂ : ch.vizType = "bar"
      · rw [if_pos h₂] at h
        split at h <;>
        · obtain ⟨h2, -⟩ := Prod.mk.injEq .. ▸ h
          cases Option.some.inj h2
          exact ⟨by simp [dget], by simp [hasRequiredKeys, h₂, dget]⟩
      · rw [if_neg h₂] at h
        by_cases h₃ : ch.vizType = "scatter"
        · rw [if_pos h₃] at h
          split at h
          · obtain ⟨h2, -⟩ := Prod.mk.injEq .. ▸ h
            cases Option.some.inj h2
            exact ⟨by simp [dget], by simp [hasRequiredKeys, h₃, dget]⟩
          · exact Option.noConfusion (congrArg Prod.fst h)
        · rw [if_neg h₃] at h
          by_cases h₄ : ch.vizType = "line"
          · rw [if_pos h₄] at h
            split at h
            · obtain ⟨h2, -⟩ := Prod.mk.injEq .. ▸ h
              cases Option.some.inj h2
              exact ⟨by simp [dget], by simp [hasRequiredKeys, h₄, dget]⟩
            · exact Option.noConfusion (congrArg Prod.fst h)
          · rw [if_neg h₄] at h
            by_cases h₅ : ch.vizType = "summarize"
            · rw [if_pos h₅] at h
              split at h <;>
              · obtain ⟨h2, -⟩ := Prod.mk.injEq .. ▸ h
                cases Option.some.inj h2
                exact ⟨by simp [dget], by simp [hasRequiredKeys, h₅, dget]⟩
            · rw [if_neg h₅] at h
              obtain ⟨h2, -⟩ := Prod.mk.injEq .. ▸ h
              cases Option.some.inj h2
              refine ⟨by simp [dget], ?_⟩
              simp [hasRequiredKeys, h₁, h₂, h₃, h₄]

/-! ## Claim C8 -/

theorem filterMap_guard {α β : Type} (P : α → Bool) (g : α → β) (l : List α) :
    l.filterMap (fun x => if P x then some (g x) else none) = (l.filter P).map g := by
  induction l with
  | nil => rfl
  | cons x xs ih => by_cases h : P x <;> simp [List.filterMap_cons, List.filter_cons, h, ih]

theorem summaryRows_str (df : DataFrame) (names : List String) :
    summaryRows df (names.map .str) =
      (names.filter (fun c => df.cols.contains c)).map (summaryRowFor df) := by
  unfold summaryRows
  rw [List.filterMap_map]
  have h : ((fun v => match v with
      | PyVal.str c => if df.cols.contains c then some (summaryRowFor df c) else none
      | _ => none) ∘ PyVal.str) =
      fun c => if df.cols.contains c then some (summaryRowFor df c) else none := rfl
  rw [h, filterMap_guard]

/-- C8: for a summarize action requesting an explicit column list,
`generate_summary_statistics` returns one summary row per requested
column that exists in the dataframe, in request order, silently skipping
requested columns absent from the dataframe with no error for them —
lenient, unlike the strict column-not-found errors produced by
`prepare_data_for_visualization`'s validation. -/
theorem C8_summarize_skips_missing (df : DataFrame) (names : List String) (action : PyVal)
    (h : dget action "columns" = some (.list (names.map .str))) :
    generate_summary_statistics df action =
      (some ((names.filter (fun c => df.cols.contains c)).map (summaryRowFor df)), none) := by
  simp only [generate_summary_statistics, h, Option.getD_some]
  rw [summaryRows_str]

/-! ## Claim C2 -/

/-- The columns a well-formed chart action references, read off the claim:
`column` for histogram; `x` plus a truthy `y` for bar; `x` and `y` for
scatter and line.  `none` when the action is not a well-formed chart
action of one of the four types. -/
def chartRefCols (action : PyVal) : Option (List String) :=
  match (dget action "type").getD (.str "") with
  | .str ty =>
    if strLower ty = "histogram" then
      match dget action "column" with
      | some (.str c) => some [c]
      | _ => none
    else if strLower ty = "bar" then
      match dget action "x" with
      | some (.str x) =>
        (match dget action "y" with
         | some (.str y) => if y = "" then some [x] else some [x, y]
         | some .none_ => some [x]
         | some _ => none
         | none => some [x])
      | _ => none
    else if strLower ty = "scatter" ∨ strLower ty = "line" then
      match dget action "x", dget action "y" with
      | some (.str x), some (.str y) => some [x, y]
      | _, _ => none
    else none
  | _ => none

theorem intercalate_one (s q : String) : String.intercalate s [q] = q := by
  simp [String.intercalate, String.intercalate.go]

theorem intercalate_two (s q r : String) :
    String.intercalate s [q, r] = q ++ s ++ r := by
  simp [String.intercalate, String.intercalate.go]

/-- The quoted form of a missing column occurs inside the scatter/line
missing-columns message. -/
theorem missingMsg_names (x y : String) (cols : List String)
    (hmiss : cols.contains x = false ∨ cols.contains y = false) :
    ∃ c, (c = x ∨ c = y) ∧ cols.contains c = false ∧
      ∃ a b, (missingColsMsg (.str x) (.str y) cols).data =
        a ++ ((s!"'{c}'").data ++ b) := by
  have hsplit : ∀ z : String, (s!"'{z}'") = "'" ++ z ++ "'" := fun z => rfl
  by_cases hx : cols.contains x = true
  · have hy : cols.contains y = false := by
      rcases hmiss with h | h
      · rw [hx] at h; cases h
      · exact h
    refine ⟨y, Or.inr rfl, hy, "Columns ".data, " not found in the dataset.".data, ?_⟩
    have hmsg : missingColsMsg (.str x) (.str y) cols =
        "Columns " ++ s!"'{y}'" ++ " not found in the dataset." := by
      unfold missingColsMsg
      simp only [inColumns, pyStr, hx, hy, if_pos, if_neg, Bool.false_eq_true,
        if_false, if_true, List.nil_append]
      rw [intercalate_one]
      rfl
    rw [hmsg]
    simp [String.data_append, List.append_assoc]
  · have hx₂ : cols.contains x = false := by
      cases h : cols.contains x
      · rfl
      · exact absurd h hx
    refine ⟨x, Or.inl rfl, hx₂, "Columns ".data, ?_⟩
    by_cases hy : cols.contains y = true
    · refine ⟨" not found in the dataset.".data, ?_⟩
      have hmsg : missingColsMsg (.str x) (.str y) cols =
          "Columns " ++ s!"'{x}'" ++ " not found in the dataset." := by
        unfold missingColsMsg
        simp only [inColumns, pyStr, hx₂, hy, Bool.false_eq_true, if_false, if_true,
          List.append_nil]
        rw [intercalate_one]
        rfl
      rw [hmsg]
      simp [String.data_append, List.append_assoc]
    · have hy₂ : cols.contains y = false := by
        cases h : cols.contains y
        · rfl
        · exact absurd h hy
      refine ⟨(" and " ++ s!"'{y}'" ++ " not found in the dataset.").data, ?_⟩
      have hmsg : missingColsMsg (.str x) (.str y) cols =
          "Columns " ++ (s!"'{x}'" ++ " and " ++ s!"'{y}'") ++ " not found in the dataset." := by
        unfold missingColsMsg
        simp only [inColumns, pyStr, hx₂, hy₂, Bool.false_eq_true, if_false]
        rw [show ([s!"'{x}'"] ++ [s!"'{y}'"] : List String) = [s!"'{x}'", s!"'{y}'"] from rfl,
          intercalate_two]
        rfl
      rw [hmsg]
      simp [String.data_append, List.append_assoc]

/-- The quoted form of the missing column occurs inside the single-column
not-found message. -/
theorem colMsg_names (z : String) :
    ∃ a b, (s!"Column '{z}' not found in the dataset.").data =
      a ++ ((s!"'{z}'").data ++ b) := by
  refine ⟨"Column ".data, " not found in the dataset.".data, ?_⟩
  have h : (s!"Column '{z}' not found in the dataset.") =
      "Column '" ++ z ++ "' not found in the dataset." := rfl
  rw [h]
  rw [show (s!"'{z}'") = "'" ++ z ++ "'" from rfl]
  simp [String.data_append, List.append_assoc]

set_option maxHeartbeats 1600000 in
/-- C2: for every well-formed chart action (histogram, bar, scatter,
line), `prepare_data_for_visualization` errors exactly when some
referenced column is absent from the dataframe, the error message quotes
a missing column verbatim, and when every referenced column exists it
returns a prepared dataframe with no error. -/
theorem C2_prepare_column_validation (df : DataFrame) (action : PyVal) (cs : List String)
    (h : chartRefCols action = some cs) :
    ((prepare_data_for_visualization df action).error = none ↔
      ∀ c ∈ cs, c ∈ df.cols) ∧
    ((∀ c ∈ cs, c ∈ df.cols) →
      (prepare_data_for_visualization df action).result.isSome) ∧
    (∀ e, (prepare_data_for_visualization df action).error = some e →
      ∃ c ∈ cs, c ∉ df.cols ∧
        ∃ a b, e.data = a ++ ((s!"'{c}'").data ++ b)) := by
  obtain ⟨ty, hty⟩ : ∃ ty, (dget action "type").getD (.str "") = .str ty := by
    unfold chartRefCols at h
    cases hg : (dget action "type").getD (.str "") <;> rw [hg] at h <;> simp at h
    exact ⟨_, rfl⟩
  simp only [chartRefCols, hty] at h
  simp only [prepare_data_for_visualization, hty]
  by_cases h1 : strLower ty = "histogram"
  · rw [if_pos h1] at h ⊢
    cases hcol : dget action "column" with
    | none => rw [hcol] at h; simp at h
    | some v =>
      rw [hcol] at h
      cases v <;> simp at h
      next c =>
      subst h
      simp only [hcol, Option.getD_some]
      by_cases hc : c ∈ df.cols
      · rw [if_neg (by simp [inColumns, hc])]
        cases hnd : numericDtype (df.colVals (asColName (.str c))) <;> simp [hnd, hc]
      · rw [if_pos (by simp [inColumns, hc])]
        refine ⟨by simp [hc], by simp [hc], ?_⟩
        intro e he
        obtain rfl := Option.some.inj he
        refine ⟨c, by simp, hc, ?_⟩
        simpa [pyStr] using colMsg_names c
  · rw [if_neg h1] at h ⊢
    by_cases h2 : strLower ty = "bar"
    · rw [if_pos h2] at h ⊢
      cases hx2 : dget action "x" with
      | none => rw [hx2] at h; simp at h
      | some xv =>
        rw [hx2] at h
        cases xv <;> simp at h
        next x =>
        rcases hy2 : dget action "y" with - | yv
        · rw [hy2] at h
          simp at h
          subst h
          simp only [hx2, hy2, Option.getD_some, Option.getD_none]
          by_cases hxc : x ∈ df.cols
          · rw [if_neg (by simp [inColumns, hxc])]
            rw [if_neg (by simp [pyTruthy])]
            rw [if_neg (by simp [pyTruthy])]
            simp [hxc]
          · rw [if_pos (by simp [inColumns, hxc])]
            refine ⟨by simp [hxc], by intro h5; exact absurd (h5 x (by simp)) hxc, ?_⟩
            intro e he
            obtain rfl := Option.some.inj he
            refine ⟨x, by simp, hxc, ?_⟩
            simpa [pyStr] using colMsg_names x
        · rw [hy2] at h
          cases yv <;> simp at h
          next =>
            subst h
            simp only [hx2, hy2, Option.getD_some]
            by_cases hxc : x ∈ df.cols
            · rw [if_neg (by simp [inColumns, hxc])]
              rw [if_neg (by simp [pyTruthy])]
              rw [if_neg (by simp [pyTruthy])]
              simp [hxc]
            · rw [if_pos (by simp [inColumns, hxc])]
              refine ⟨by simp [hxc], by intro h5; exact absurd (h5 x (by simp)) hxc, ?_⟩
              intro e he
              obtain rfl := Option.some.inj he
              refine ⟨x, by simp, hxc, ?_⟩
              simpa [pyStr] using colMsg_names x
          next y =>
            by_cases hye : y = ""
            · rw [if_pos hye] at h
              simp at h
              subst h
              subst hye
              simp only [hx2, hy2, Option.getD_some]
              by_cases hxc : x ∈ df.cols
              · rw [if_neg (by simp [inColumns, hxc])]
                rw [if_neg (by simp [pyTruthy])]
                rw [if_neg (by simp [pyTruthy])]
                simp [hxc]
              · rw [if_pos (by simp [inColumns, hxc])]
                refine ⟨by simp [hxc], by intro h5; exact absurd (h5 x (by simp)) hxc, ?_⟩
                intro e he
                obtain rfl := Option.some.inj he
                refine ⟨x, by simp, hxc, ?_⟩
                simpa [pyStr] using colMsg_names x
            · rw [if_neg hye] at h
              simp at h
              subst h
              simp only [hx2, hy2, Option.getD_some]
              have hyt : pyTruthy (.str y) = true := by simp [pyTruthy, hye]
              by_cases hxc : x ∈ df.cols
              · rw [if_neg (by simp [inColumns, hxc])]
                by_cases hyc : y ∈ df.cols
                · rw [if_neg (by simp [inColumns, hyt, hyc])]
                  cases hnd : numericDtype (df.colVals (asColName (.str y)))
                  · rw [if_pos ⟨hyt, by simp [hnd]⟩]
                    simp [hxc, hyc]
                  · rw [if_neg (fun hcon => hcon.2 rfl)]
                    simp [hxc, hyc]
                · rw [if_pos ⟨hyt, by simp [inColumns, hyc]⟩]
                  refine ⟨by simp [hyc], by intro h5; exact absurd (h5 y (by simp)) hyc, ?_⟩
                  intro e he
                  obtain rfl := Option.some.inj he
                  refine ⟨y, by simp, hyc, ?_⟩
                  simpa [pyStr] using colMsg_names y
              · rw [if_pos (by simp [inColumns, hxc])]
                refine ⟨by simp [hxc], by intro h5; exact absurd (h5 x (by simp)) hxc, ?_⟩
                intro e he
                obtain rfl := Option.some.inj he
                refine ⟨x, by simp, hxc, ?_⟩
                simpa [pyStr] using colMsg_names x
    · rw [if_neg h2] at h ⊢
      by_cases h3 : strLower ty = "scatter"
      · rw [if_pos (Or.inl h3)] at h
        rw [if_pos h3]
        cases hx2 : dget action "x" with
        | none => rw [hx2] at h; simp at h
        | some xv =>
          rw [hx2] at h
          cases hy2 : dget action "y" with
          | none => rw [hy2] at h; cases xv <;> simp at h
          | some yv =>
            rw [hy2] at h
            cases xv <;> cases yv <;> simp at h
            next x y =>
            subst h
            simp only [hx2, hy2, Option.getD_some]
            by_cases hxc : x ∈ df.cols
            · by_cases hyc : y ∈ df.cols
              · rw [if_neg (by simp [inColumns, hxc, hyc])]
                simp [hxc, hyc]
              · rw [if_pos (Or.inr (by simp [inColumns, hyc]))]
                refine ⟨by simp [hyc], by intro h5; exact absurd (h5 y (by simp)) hyc, ?_⟩
                intro e he
                obtain rfl := Option.some.inj he
                obtain ⟨c, hcm, hcf, a, b, hab⟩ :=
                  missingMsg_names x y df.cols (Or.inr (by simpa using hyc))
                exact ⟨c, by rcases hcm with rfl | rfl <;> simp, by simpa using hcf, a, b, hab⟩
            · rw [if_pos (Or.inl (by simp [inColumns, hxc]))]
              refine ⟨by simp [hxc], by intro h5; exact absurd (h5 x (by simp)) hxc, ?_⟩
              intro e he
              obtain rfl := Option.some.inj he
              obtain ⟨c, hcm, hcf, a, b, hab⟩ :=
                missingMsg_names x y df.cols (Or.inl (by simpa using hxc))
              exact ⟨c, by rcases hcm with rfl | rfl <;> simp, by simpa using hcf, a, b, hab⟩
      · by_cases h4 : strLower ty = "line"
        · rw [if_pos (Or.inr h4)] at h
          rw [if_neg h3, if_pos h4]
          cases hx2 : dget action "x" with
          | none => rw [hx2] at h; simp at h
          | some xv =>
            rw [hx2] at h
            cases hy2 : dget action "y" with
            | none => rw [hy2] at h; cases xv <;> simp at h
            | some yv =>
              rw [hy2] at h
              cases xv <;> cases yv <;> simp at h
              next x y =>
              subst h
              simp only [hx2, hy2, Option.getD_some]
              by_cases hxc : x ∈ df.cols
              · by_cases hyc : y ∈ df.cols
                · rw [if_neg (by simp [inColumns, hxc, hyc])]
                  simp [hxc, hyc]
                · rw [if_pos (Or.inr (by simp [inColumns, hyc]))]
                  refine ⟨by simp [hyc], by intro h5; exact absurd (h5 y (by simp)) hyc, ?_⟩
                  intro e he
                  obtain rfl := Option.some.inj he
                  obtain ⟨c, hcm, hcf, a, b, hab⟩ :=
                    missingMsg_names x y df.cols (Or.inr (by simpa using hyc))
                  exact ⟨c, by rcases hcm with rfl | rfl <;> simp, by simpa using hcf, a, b, hab⟩
              · rw [if_pos (Or.inl (by simp [inColumns, hxc]))]
                refine ⟨by simp [hxc], by intro h5; exact absurd (h5 x (by simp)) hxc, ?_⟩
                intro e he
                obtain rfl := Option.some.inj he
                obtain ⟨c, hcm, hcf, a, b, hab⟩ :=
                  missingMsg_names x y df.cols (Or.inl (by simpa using hxc))
                exact ⟨c, by rcases hcm with rfl | rfl <;> simp, by simpa using hcf, a, b, hab⟩
        · rw [if_neg (by rw [not_or]; exact ⟨h3, h4⟩)] at h
          simp at h

/-- Witness for `C2_prepare_column_validation` at a concrete one-column
dataframe and a histogram action referencing the existing column. -/
theorem C2_prepare_column_validation_witness :
    ((prepare_data_for_visualization ⟨["age"], [[.num 30]]⟩
        (.dict [("type", .str "histogram"), ("column", .str "age")])).error = none ↔
      ∀ c ∈ ["age"], c ∈ (⟨["age"], [[.num 30]]⟩ : DataFrame).cols) ∧
    ((∀ c ∈ ["age"], c ∈ (⟨["age"], [[.num 30]]⟩ : DataFrame).cols) →
      (prepare_data_for_visualization ⟨["age"], [[.num 30]]⟩
        (.dict [("type", .str "histogram"), ("column", .str "age")])).result.isSome) ∧
    (∀ e, (prepare_data_for_visualization ⟨["age"], [[.num 30]]⟩
        (.dict [("type", .str "histogram"), ("column", .str "age")])).error = some e →
      ∃ c ∈ ["age"], c ∉ (⟨["age"], [[.num 30]]⟩ : DataFrame).cols ∧
        ∃ a b, e.data = a ++ ((s!"'{c}'").data ++ b)) :=
  C2_prepare_column_validation ⟨["age"], [[.num 30]]⟩
    (.dict [("type", .str "histogram"), ("column", .str "age")]) ["age"] (by decide)

/-- Witness for `C8_summarize_skips_missing`: requesting columns `a` and
`zz` of a one-column dataframe yields exactly the row for `a`, no error. -/
theorem C8_summarize_skips_missing_witness :
    generate_summary_statistics ⟨["a"], [[.num 1]]⟩
        (.dict [("type", .str "summarize"), ("columns", .list [.str "a", .str "zz"])]) =
      (some (((["a", "zz"] : List String).filter
          (fun c => (["a"] : List String).contains c)).map
            (summaryRowFor ⟨["a"], [[.num 1]]⟩)), none) :=
  C8_summarize_skips_missing ⟨["a"], [[.num 1]]⟩ ["a", "zz"] _ (by rfl)

/-! ## Claim C6 -/

/-- A filter condition the parser accepts: a dict carrying `column` and
`value` whose `operator`, when the key is present at all, is one of the
five supported operator strings (a missing key defaults to `==`). -/
def goodCond (cond : PyVal) : Prop :=
  isDict cond = true ∧ (dget cond "column").isSome = true ∧
  (dget cond "value").isSome = true ∧
  (∀ o, dget cond "operator" = some o → ∃ s ∈ validOps, o = .str s)

theorem filterCheck_good (conds : List PyVal) (h : ∀ c ∈ conds, goodCond c) :
    filterCheck conds = none := by
  induction conds with
  | nil => rfl
  | cons cond rest ih =>
    obtain ⟨hd, hc, hv, hop⟩ := h cond (by simp)
    rw [filterCheck, if_neg (by simp [hd]),
      if_neg (by
        simp only [Option.isNone_iff_eq_none, not_or]
        exact ⟨fun hh => by simp [hh] at hc, fun hh => by simp [hh] at hv⟩)]
    have hok : validOps.any
        (fun o => pyEq ((dget cond "operator").getD (.str "==")) (.str o)) = true := by
      cases ho : dget cond "operator" with
      | none => simp [pyEq, validOps]
      | some o =>
        obtain ⟨s, hs, rfl⟩ := hop o ho
        rw [List.any_eq_true]
        exact ⟨s, hs, by simp [pyEq]⟩
    rw [if_pos hok]
    exact ih (fun c hc₂ => h c (by simp [hc₂]))

theorem filterCheck_bad (good : List PyVal) (bad : PyVal) (rest : List PyVal) (op : String)
    (hg : ∀ c ∈ good, goodCond c) (hd : isDict bad = true)
    (hc : (dget bad "column").isSome = true) (hv : (dget bad "value").isSome = true)
    (ho : dget bad "operator" = some (.str op)) (hop : op ∉ validOps) :
    filterCheck (good ++ bad :: rest) = some s!"Invalid filter operator: {op}" := by
  induction good with
  | nil =>
    rw [List.nil_append, filterCheck, if_neg (by simp [hd]),
      if_neg (by
        simp only [Option.isNone_iff_eq_none, not_or]
        exact ⟨fun hh => by simp [hh] at hc, fun hh => by simp [hh] at hv⟩)]
    rw [if_neg ?nop]
    · simp [ho, pyStr]
    case nop =>
      rw [ho]
      simp only [Option.getD_some, List.any_eq_true, not_exists]
      rintro s ⟨hs, hpe⟩
      have hos : op = s := by simpa [pyEq] using hpe
      exact hop (hos ▸ hs)
  | cons c₂ cs ih =>
    obtain ⟨hd₂, hc₂, hv₂, hop₂⟩ := hg c₂ (by simp)
    rw [List.cons_append, filterCheck, if_neg (by simp [hd₂]),
      if_neg (by
        simp only [Option.isNone_iff_eq_none, not_or]
        exact ⟨fun hh => by simp [hh] at hc₂, fun hh => by simp [hh] at hv₂⟩)]
    have hok : validOps.any
        (fun o => pyEq ((dget c₂ "operator").getD (.str "==")) (.str o)) = true := by
      cases ho₂ : dget c₂ "operator" with
      | none => simp [pyEq, validOps]
      | some o =>
        obtain ⟨s, hs, rfl⟩ := hop₂ o ho₂
        rw [List.any_eq_true]
        exact ⟨s, hs, by simp [pyEq]⟩
    rw [if_pos hok]
    exact ih (fun c hcm => hg c (by simp [hcm]))

set_option maxHeartbeats 800000 in
/-- C6: when the parsed response's filter list contains a condition whose
operator lies outside `{==, >=, <=, >, <}` (every condition before it
being well-formed), `parse_llm_response` returns exactly the error
`Invalid filter operator: <operator>` and no action — the rejection
happens in the parser, before any filtering could run; and a condition
lacking an `operator` key passes the check as the default operator `==`. -/
theorem C6_invalid_operator_rejected (t : String) (parsed action bad : PyVal)
    (ty op : String) (conds good rest : List PyVal)
    (ht : t ≠ "")
    (hp : safe_json_parse t = some parsed)
    (hdict : isDict parsed = true)
    (ha : dget parsed "action" = some action)
    (hty : dget action "type" = some (.str ty))
    (hf : dget action "filter" = some (.list conds))
    (hconds : conds = good ++ bad :: rest)
    (hgood : ∀ c ∈ good, goodCond c)
    (hbd : isDict bad = true)
    (hbc : (dget bad "column").isSome = true)
    (hbv : (dget bad "value").isSome = true)
    (hbo : dget bad "operator" = some (.str op))
    (hop : op ∉ validOps) :
    parse_llm_response t = parseErr s!"Invalid filter operator: {op}" ∧
    (∀ conds₂, (∀ c ∈ conds₂, goodCond c) → filterCheck conds₂ = none) := by
  refine ⟨?_, filterCheck_good⟩
  obtain ⟨kvs, rfl⟩ : ∃ kvs, parsed = .dict kvs := by
    cases parsed <;> simp [isDict] at hdict
    exact ⟨_, rfl⟩
  have hne : kvs ≠ [] := by
    rintro rfl
    simp [dget] at ha
  obtain ⟨akvs, rfl⟩ : ∃ akvs, action = .dict akvs := by
    cases action <;> simp [dget] at hty ⊢
  have hcheck : filterCheck conds = some s!"Invalid filter operator: {op}" := by
    rw [hconds]
    exact filterCheck_bad good bad rest op hgood hbd hbc hbv hbo hop
  have hnonempty : conds ≠ [] := by
    rw [hconds]
    simp
  rw [parse_llm_response, if_neg ht, hp]
  simp only [ha, hty, hf, Option.getD_some]
  rw [if_neg (by simp [pyTruthy, hne])]
  rw [if_neg (by simp [isDict])]
  rw [if_neg (by simp [isDict, hty])]
  rw [if_pos (show pyTruthy (PyVal.list conds) = true from by simp [pyTruthy, hnonempty])]
  simp only [hcheck]

/-- Witness for `C6_invalid_operator_rejected` on a concrete response
whose single filter condition uses the unsupported operator `!=`, plus
the operator-defaulting conjunct at a condition without an `operator`
key. -/
theorem C6_invalid_operator_rejected_witness :
    parse_llm_response
        "\x7b\"action\": \x7b\"type\": \"summarize\", \"filter\": [\x7b\"column\": \"sex\", \"value\": \"male\", \"operator\": \"!=\"\x7d]\x7d\x7d" =
      parseErr "Invalid filter operator: !=" ∧
    filterCheck [PyVal.dict [("column", .str "sex"), ("value", .str "male")]] = none := by
  have happ := C6_invalid_operator_rejected
    "\x7b\"action\": \x7b\"type\": \"summarize\", \"filter\": [\x7b\"column\": \"sex\", \"value\": \"male\", \"operator\": \"!=\"\x7d]\x7d\x7d"
    (.dict [("action", .dict [("type", .str "summarize"),
      ("filter", .list [.dict [("column", .str "sex"), ("value", .str "male"),
        ("operator", .str "!=")]])])])
    (.dict [("type", .str "summarize"),
      ("filter", .list [.dict [("column", .str "sex"), ("value", .str "male"),
        ("operator", .str "!=")]])])
    (.dict [("column", .str "sex"), ("value", .str "male"), ("operator", .str "!=")])
    "summarize" "!="
    [.dict [("column", .str "sex"), ("value", .str "male"), ("operator", .str "!=")]]
    [] []
    (by decide) rfl rfl rfl rfl rfl rfl
    (fun c hc => absurd hc (List.not_mem_nil c))
    rfl rfl rfl rfl (by decide)
  exact ⟨happ.1, happ.2 [PyVal.dict [("column", .str "sex"), ("value", .str "male")]]
    (by
      intro c hc
      simp only [List.mem_singleton] at hc
      subst hc
      refine ⟨rfl, rfl, rfl, ?_⟩
      intro o ho
      rw [show dget (PyVal.dict [("column", PyVal.str "sex"), ("value", PyVal.str "male")])
        "operator" = none from rfl] at ho
      cases ho)⟩

/-! ## Claim C9 -/

set_option maxHeartbeats 800000 in
/-- C9: `parse_llm_response` lowercases the type only for its checks, so a
mixed-case `Summarize` action passes validation while the returned action
keeps its original casing; `main`'s dispatcher compares
`action["type"] == "summarize"` exactly, so such an action is not routed
to the summary producer — it goes down the chart-preparation path. -/
theorem C9_mixed_case_summarize (t : String) (parsed action : PyVal) (ty : String)
    (ht : t ≠ "")
    (hp : safe_json_parse t = some parsed)
    (hdict : isDict parsed = true)
    (ha : dget parsed "action" = some action)
    (hty : dget action "type" = some (.str ty))
    (hlower : strLower ty = "summarize")
    (hfilter : dget action "filter" = none)
    (hcase : ty ≠ "summarize") :
    (parse_llm_response t).action = some action ∧
    (parse_llm_response t).error = none ∧
    dget action "type" = some (.str ty) ∧
    routesToSummary action = false := by
  obtain ⟨kvs, rfl⟩ : ∃ kvs, parsed = .dict kvs := by
    cases parsed <;> simp [isDict] at hdict
    exact ⟨_, rfl⟩
  have hne : kvs ≠ [] := by
    rintro rfl
    simp [dget] at ha
  obtain ⟨akvs, rfl⟩ : ∃ akvs, action = .dict akvs := by
    cases action <;> simp [dget] at hty ⊢
  have hroute : routesToSummary (.dict akvs) = false := by
    unfold routesToSummary
    rw [hty]
    simp [pyEq, hcase]
  have hparse : parse_llm_response t =
      ⟨some (.dict akvs),
       some ((dget (.dict kvs) "description").getD (.str "No description provided.")),
       none, none⟩ := by
    rw [parse_llm_response, if_neg ht, hp]
    simp only [ha, hty, hfilter, Option.getD_some]
    rw [if_neg (by simp [pyTruthy, hne])]
    rw [if_neg (by simp [isDict])]
    rw [if_neg (by simp [isDict, hty])]
    simp only [Option.getD_none]
    rw [if_neg (by simp [pyTruthy])]
    rw [if_neg (by simp [hlower])]
    rw [if_neg (by simp [hlower])]
    rw [if_neg (by simp [hlower])]
    rw [if_neg (by simp [hlower])]
    rw [if_pos hlower]
  rw [hparse]
  exact ⟨rfl, rfl, hty, hroute⟩

/-- Witness for `C9_mixed_case_summarize` on the concrete response
`{"action": {"type": "Summarize"}}`. -/
theorem C9_mixed_case_summarize_witness :
    (parse_llm_response "\x7b\"action\": \x7b\"type\": \"Summarize\"\x7d\x7d").action =
      some (.dict [("type", .str "Summarize")]) ∧
    (parse_llm_response "\x7b\"action\": \x7b\"type\": \"Summarize\"\x7d\x7d").error = none ∧
    dget (.dict [("type", .str "Summarize")]) "type" = some (.str "Summarize") ∧
    routesToSummary (.dict [("type", .str "Summarize")]) = false :=
  C9_mixed_case_summarize "\x7b\"action\": \x7b\"type\": \"Summarize\"\x7d\x7d"
    (.dict [("action", .dict [("type", .str "Summarize")])])
    (.dict [("type", .str "Summarize")]) "Summarize"
    (by decide) rfl rfl rfl rfl (by decide) rfl (by decide)

end PDVE
